import Mathlib

/-!
# The Vulkan proc table (`vulkan/procs/vulkan_proc_table.cc`)

A shallow embedding of `vulkan::VulkanProcTable`: the three constructors, the
tiered proc acquisition (`SetupLoaderProcAddresses`,
`SetupInstanceProcAddresses`, `SetupDeviceProcAddresses`), the presence
queries and the thread-safe queue shim.

Conventions of the embedding

* a function address and a native handle are natural numbers, `0` being
  `nullptr` / `VK_NULL_HANDLE`;
* the `DEFINE_PROC` members of the table are one map `procs` from the member
  name (`"CreateDevice"`, ...) to the stored address;
* what a foreign function does when it is called through its address is given
  by the environment `Env` (the loader, the driver, the symbol resolver);
* the preprocessor flags are the fields of `BuildConfig`;
* a member function that writes the table returns the new table next to its
  C++ result.
-/

namespace vulkan

/-! ## External collaborators -/

/-- Modelled from the spec: the Handle Wrapper of `vulkan_handle.h` (not among
the sources), "pairs a native handle value with an optional cleanup callback;
equality/validity is determined by the handle value being non-null/non-zero". -/
structure VulkanHandle where
  /-- The native handle, `0` is `VK_NULL_HANDLE`. -/
  handle_ : Nat
  /-- The destroyer, `none` is `nullptr`. -/
  disposer_ : Option Nat
deriving DecidableEq, Repr

/-- Modelled from the spec: `explicit operator bool()` of the Handle Wrapper,
true when the handle value is non-null. -/
def VulkanHandle.toBool (h : VulkanHandle) : Bool := h.handle_ != 0

/-- The preprocessor symbols the translation unit branches on. `NDEBUG_unset`
is the debug build, in which `FML_DCHECK` is fatal. -/
structure BuildConfig where
  FML_OS_ANDROID : Bool
  OS_FUCHSIA : Bool
  TEST_VULKAN_PROCS : Bool
  VULKAN_LINK_STATICALLY : Bool
  NDEBUG_unset : Bool
deriving DecidableEq, Repr

/-- The world outside the table: the native-library facility and the behaviour
of the foreign functions that the table calls through stored addresses. -/
structure Env where
  cfg : BuildConfig
  /-- The call `fml::NativeLibrary::Create(path)`, `0` when the library does not open. -/
  Create : String → Nat
  /-- The call `fml::NativeLibrary::CreateForCurrentProcess()`. -/
  CreateForCurrentProcess : Nat
  /-- The call `library->ResolveSymbol(name)`, `0` when the symbol is absent. -/
  ResolveSymbol : Nat → String → Nat
  /-- The address `&vkGetInstanceProcAddr` of the statically linked loader. -/
  vkGetInstanceProcAddr : { p : Nat // p ≠ 0 }
  /-- Calling the function at an address as a `PFN_vkGetInstanceProcAddr`. -/
  callGetInstanceProcAddr : Nat → Nat → String → Nat
  /-- Calling the function at an address as a `PFN_vkGetDeviceProcAddr`. -/
  callGetDeviceProcAddr : Nat → Nat → String → Nat
  /-- Calling the function at an address as a `vkQueueSubmit`. -/
  callQueueSubmit : Nat → Nat → Nat → Nat → Nat → Int
  /-- Calling the function at an address as a `vkQueueWaitIdle`. -/
  callQueueWaitIdle : Nat → Nat → Int
  /-- The address of the shim `vkQueueSubmitThreadsafe`. -/
  addr_vkQueueSubmitThreadsafe : { p : Nat // p ≠ 0 }
  /-- The address of the shim `vkQueueWaitIdleThreadsafe`. -/
  addr_vkQueueWaitIdleThreadsafe : { p : Nat // p ≠ 0 }

/-- How a call ends: it returns, it calls through a null function pointer, it
dereferences a null object pointer, or a failed `FML_DCHECK` aborts the process. -/
inductive Outcome (α : Type) where
  | returned (a : α)
  | nullCall
  | nullDeref
  | dcheckFailed
deriving DecidableEq, Repr

/-- The call returns. -/
def Outcome.returns {α : Type} : Outcome α → Bool
  | .returned _ => true
  | .nullCall => false
  | .nullDeref => false
  | .dcheckFailed => false

/-- The value of a call that returns. -/
def Outcome.value {α : Type} : (o : Outcome α) → o.returns = true → α
  | .returned a, _ => a
  | .nullCall, h => Bool.noConfusion h
  | .nullDeref, h => Bool.noConfusion h
  | .dcheckFailed, h => Bool.noConfusion h

/-! ## The table -/

/-- Modelled from the spec: the members of the class (declared in
`vulkan_proc_table.h`, not among the sources): the library handle, the flag
"mandatory procs acquired", the instance and device handle references, and for
each logical operation name the resolved function pointer. -/
structure VulkanProcTable where
  handle_ : Nat
  acquired_mandatory_proc_addresses_ : Bool
  instance_ : VulkanHandle
  device_ : VulkanHandle
  procs : String → Nat

/-- The assignment `name = p` to the proc member called `name`. -/
def VulkanProcTable.setProc (t : VulkanProcTable) (name : String) (p : Nat) :
    VulkanProcTable :=
  { t with procs := fun k => if k = name then p else t.procs k }

/-- The context argument of the two overloads of `AcquireProc`. -/
inductive Context where
  | ofInstance (h : VulkanHandle)
  | ofDevice (h : VulkanHandle)
deriving DecidableEq, Repr

/-- Both overloads of `AcquireProc` (lines 231-241 and 319-327); `proc_name`
is `none` for `nullptr`. -/
def AcquireProc (env : Env) (t : VulkanProcTable) (proc_name : Option String) :
    Context → Nat
  | .ofInstance inst =>
    match proc_name with
    | none => 0
    | some n =>
      if t.procs "GetInstanceProcAddr" = 0 then 0
      else env.callGetInstanceProcAddr (t.procs "GetInstanceProcAddr") inst.handle_ n
  | .ofDevice device =>
    match proc_name with
    | none => 0
    | some n =>
      if device.toBool = false ∨ t.procs "GetDeviceProcAddr" = 0 then 0
      else env.callGetDeviceProcAddr (t.procs "GetDeviceProcAddr") device.handle_ n

/-- The macro `ACQUIRE_PROC(name, context)`: the member is assigned, and the
flag is `false` when the macro executes `return false`. -/
def ACQUIRE_PROC (env : Env) (name : String) (context : Context)
    (t : VulkanProcTable) : VulkanProcTable × Bool :=
  let p := AcquireProc env t (some ("vk" ++ name)) context
  (t.setProc name p, p != 0)

/-- The macro `ACQUIRE_PROC_EITHER(name, name2, context)`: `name2` is only
tried, and assigned, when `name` came back null. -/
def ACQUIRE_PROC_EITHER (env : Env) (name name2 : String) (context : Context)
    (t : VulkanProcTable) : VulkanProcTable × Bool :=
  let p := AcquireProc env t (some ("vk" ++ name)) context
  let t1 := t.setProc name p
  if p != 0 then (t1, true)
  else
    let p2 := AcquireProc env t1 (some ("vk" ++ name2)) context
    (t1.setProc name2 p2, p2 != 0)

/-- One macro invocation in the body of a setup function. -/
inductive Stmt where
  | proc (name : String)
  | either (name name2 : String)
deriving DecidableEq, Repr

/-- Executes one macro invocation. -/
def Stmt.exec (env : Env) (context : Context) : Stmt → VulkanProcTable →
    VulkanProcTable × Bool
  | .proc name, t => ACQUIRE_PROC env name context t
  | .either name name2, t => ACQUIRE_PROC_EITHER env name name2 context t

/-- Executes macro invocations in order, stopping at the first `return false`. -/
def execStmts (env : Env) (context : Context) : List Stmt → VulkanProcTable →
    VulkanProcTable × Bool
  | [], t => (t, true)
  | s :: rest, t =>
    let r := s.exec env context t
    if r.2 then execStmts env context rest r.1 else (r.1, false)

/-- Lines 102-104. -/
def loaderStmts : List Stmt :=
  [.proc "CreateInstance", .proc "EnumerateInstanceExtensionProperties",
   .proc "EnumerateInstanceLayerProperties"]

/-- Lines 111-131. -/
def instanceStmts (cfg : BuildConfig) : List Stmt :=
  [.proc "CreateDevice", .proc "DestroyDevice", .proc "DestroyInstance",
   .proc "EnumerateDeviceLayerProperties", .proc "EnumeratePhysicalDevices",
   .proc "GetDeviceProcAddr", .proc "GetPhysicalDeviceFeatures",
   .proc "GetPhysicalDeviceQueueFamilyProperties", .proc "GetPhysicalDeviceProperties",
   .proc "GetPhysicalDeviceMemoryProperties",
   .either "GetPhysicalDeviceMemoryProperties2" "GetPhysicalDeviceMemoryProperties2KHR"]
  ++ (if cfg.FML_OS_ANDROID then
        [.proc "GetPhysicalDeviceSurfaceCapabilitiesKHR",
         .proc "GetPhysicalDeviceSurfaceFormatsKHR",
         .proc "GetPhysicalDeviceSurfacePresentModesKHR",
         .proc "GetPhysicalDeviceSurfaceSupportKHR", .proc "DestroySurfaceKHR",
         .proc "CreateAndroidSurfaceKHR"]
      else [])

/-- Lines 139-140, the body of the lambda for the optional procs. -/
def debugReportStmts : List Stmt :=
  [.proc "CreateDebugReportCallbackEXT", .proc "DestroyDebugReportCallbackEXT"]

/-- Lines 150-208. -/
def deviceStmts (cfg : BuildConfig) : List Stmt :=
  [.proc "AllocateCommandBuffers", .proc "AllocateMemory", .proc "BeginCommandBuffer",
   .proc "BindImageMemory", .proc "CmdPipelineBarrier", .proc "CreateCommandPool",
   .proc "CreateFence", .proc "CreateImage", .proc "CreateSemaphore",
   .proc "DestroyCommandPool", .proc "DestroyFence", .proc "DestroyImage",
   .proc "DestroySemaphore", .proc "DeviceWaitIdle", .proc "EndCommandBuffer",
   .proc "FreeCommandBuffers", .proc "FreeMemory", .proc "GetDeviceQueue",
   .proc "GetImageMemoryRequirements", .proc "QueueSubmit", .proc "QueueWaitIdle",
   .proc "ResetCommandBuffer", .proc "ResetFences", .proc "WaitForFences",
   .proc "MapMemory", .proc "UnmapMemory", .proc "FlushMappedMemoryRanges",
   .proc "InvalidateMappedMemoryRanges", .proc "BindBufferMemory",
   .proc "GetBufferMemoryRequirements", .proc "CreateBuffer", .proc "DestroyBuffer",
   .proc "CmdCopyBuffer",
   .either "GetBufferMemoryRequirements2" "GetBufferMemoryRequirements2KHR",
   .either "GetImageMemoryRequirements2" "GetImageMemoryRequirements2KHR",
   .either "BindBufferMemory2" "BindBufferMemory2KHR",
   .either "BindImageMemory2" "BindImageMemory2KHR"]
  ++ (if cfg.TEST_VULKAN_PROCS then []
      else
        (if cfg.FML_OS_ANDROID then
           [.proc "AcquireNextImageKHR", .proc "CreateSwapchainKHR",
            .proc "DestroySwapchainKHR", .proc "GetSwapchainImagesKHR",
            .proc "QueuePresentKHR"]
         else [])
        ++ (if cfg.OS_FUCHSIA then
              [.proc "ImportSemaphoreZirconHandleFUCHSIA",
               .proc "GetSemaphoreZirconHandleFUCHSIA",
               .proc "GetMemoryZirconHandleFUCHSIA",
               .proc "CreateBufferCollectionFUCHSIA",
               .proc "DestroyBufferCollectionFUCHSIA",
               .proc "SetBufferCollectionImageConstraintsFUCHSIA",
               .proc "GetBufferCollectionPropertiesFUCHSIA"]
            else []))

/-- The method `VulkanProcTable::HasAcquiredMandatoryProcAddresses` (lines 55-57). -/
def HasAcquiredMandatoryProcAddresses (t : VulkanProcTable) : Bool :=
  t.acquired_mandatory_proc_addresses_

/-- The method `VulkanProcTable::IsValid` (lines 59-61). -/
def IsValid (t : VulkanProcTable) : Bool :=
  t.instance_.toBool && t.device_.toBool

/-- The method `VulkanProcTable::AreInstanceProcsSetup` (lines 63-65). -/
def AreInstanceProcsSetup (t : VulkanProcTable) : Bool :=
  t.instance_.toBool

/-- The method `VulkanProcTable::AreDeviceProcsSetup` (lines 67-69). -/
def AreDeviceProcsSetup (t : VulkanProcTable) : Bool :=
  t.device_.toBool

/-- The method `VulkanProcTable::NativeGetInstanceProcAddr` (lines 85-97). In a
dynamically linked build line 94 dereferences `handle_`: with a null `handle_`
and `GetInstanceProcAddr` unset the call does not return. -/
def NativeGetInstanceProcAddr (env : Env) (t : VulkanProcTable) : Outcome Nat :=
  if t.procs "GetInstanceProcAddr" ≠ 0 then .returned (t.procs "GetInstanceProcAddr")
  else if env.cfg.VULKAN_LINK_STATICALLY then .returned env.vkGetInstanceProcAddr.val
  else if t.handle_ = 0 then .nullDeref
  else .returned (env.ResolveSymbol t.handle_ "vkGetInstanceProcAddr")

/-- The method `VulkanProcTable::SetupGetInstanceProcAddress` (lines 71-83). The
call of `NativeGetInstanceProcAddr` at line 76 is made with a non-null
`handle_`, so it returns. -/
def SetupGetInstanceProcAddress (env : Env) (t : VulkanProcTable) :
    VulkanProcTable × Bool :=
  if h : t.handle_ = 0 then (t, true)
  else
    let t1 := t.setProc "GetInstanceProcAddr"
      ((NativeGetInstanceProcAddr env t).value
        (by unfold NativeGetInstanceProcAddr; split_ifs <;> rfl))
    if t1.procs "GetInstanceProcAddr" = 0 then (t1, false) else (t1, true)

/-- The method `VulkanProcTable::SetupLoaderProcAddresses` (lines 99-107). -/
def SetupLoaderProcAddresses (env : Env) (t : VulkanProcTable) :
    VulkanProcTable × Bool :=
  let null_instance : VulkanHandle := ⟨0, none⟩
  execStmts env (.ofInstance null_instance) loaderStmts t

/-- The method `VulkanProcTable::SetupInstanceProcAddresses` (lines 109-146). -/
def SetupInstanceProcAddresses (env : Env) (t : VulkanProcTable)
    (handle : VulkanHandle) : VulkanProcTable × Bool :=
  let r := execStmts env (.ofInstance handle) (instanceStmts env.cfg) t
  if r.2 = false then (r.1, false)
  else
    let t2 := (execStmts env (.ofInstance handle) debugReportStmts r.1).1
    ({ t2 with instance_ := ⟨handle.handle_, none⟩ }, true)

/-- The method `VulkanProcTable::SetupDeviceProcAddresses` (lines 148-211). -/
def SetupDeviceProcAddresses (env : Env) (t : VulkanProcTable)
    (handle : VulkanHandle) : VulkanProcTable × Bool :=
  let r := execStmts env (.ofDevice handle) (deviceStmts env.cfg) t
  if r.2 = false then (r.1, false)
  else ({ r.1 with device_ := ⟨handle.handle_, none⟩ }, true)

/-- The method `VulkanProcTable::OpenLibraryHandle` (lines 213-224). -/
def OpenLibraryHandle (env : Env) (t : VulkanProcTable) (path : String) :
    VulkanProcTable × Bool :=
  let t1 := { t with handle_ := if env.cfg.VULKAN_LINK_STATICALLY
                                then env.CreateForCurrentProcess else env.Create path }
  if t1.handle_ = 0 then (t1, false) else (t1, true)

/-- The method `VulkanProcTable::CloseLibraryHandle` (lines 226-229). -/
def CloseLibraryHandle (t : VulkanProcTable) : VulkanProcTable × Bool :=
  ({ t with handle_ := 0 }, true)

/-- The members before a constructor body runs: the initialiser list gives
`handle_(nullptr)` and `acquired_mandatory_proc_addresses_(false)`; the handle
wrappers and the proc members are default-constructed, that is null. -/
def VulkanProcTable.initial : VulkanProcTable :=
  { handle_ := 0, acquired_mandatory_proc_addresses_ := false,
    instance_ := ⟨0, none⟩, device_ := ⟨0, none⟩, procs := fun _ => 0 }

/-- The constructor `VulkanProcTable(const char* so_path)` (lines 37-42), with
the short circuit of `&&`. -/
def VulkanProcTable.fromPath (env : Env) (so_path : String) : VulkanProcTable :=
  let r1 := OpenLibraryHandle env VulkanProcTable.initial so_path
  if r1.2 = false then { r1.1 with acquired_mandatory_proc_addresses_ := false }
  else
    let r2 := SetupGetInstanceProcAddress env r1.1
    if r2.2 = false then { r2.1 with acquired_mandatory_proc_addresses_ := false }
    else
      let r3 := SetupLoaderProcAddresses env r2.1
      { r3.1 with acquired_mandatory_proc_addresses_ := r3.2 }

/-- The constructor `VulkanProcTable()` (line 35). -/
def VulkanProcTable.fromDefault (env : Env) : VulkanProcTable :=
  VulkanProcTable.fromPath env "libvulkan.so"

/-- The constructor `VulkanProcTable(PFN_vkGetInstanceProcAddr)` (lines 44-49). -/
def VulkanProcTable.fromProc (env : Env) (get_instance_proc_addr : Nat) :
    VulkanProcTable :=
  let t1 := VulkanProcTable.initial.setProc "GetInstanceProcAddr" get_instance_proc_addr
  let r := SetupLoaderProcAddresses env t1
  { r.1 with acquired_mandatory_proc_addresses_ := r.2 }

/-! ## The thread-safe queue shim -/

/-- The two process-wide atomics of lines 246-247. -/
structure Globals where
  g_non_threadsafe_vkQueueSubmit : Nat
  g_non_threadsafe_vkQueueWaitIdle : Nat
deriving DecidableEq, Repr

/-- What a shim does besides returning: the shared mutex and the foreign calls. -/
inductive Event where
  | lock
  | unlock
  | queueSubmit (f queue submitCount pSubmits fence : Nat)
  | queueWaitIdle (f queue : Nat)
deriving DecidableEq, Repr

/-- Modelled from the spec: the macro `FML_DCHECK` of `fml/logging.h` (not among
the sources), an assertion that is "fatal in debug builds only". The result is
`true` when execution continues. -/
def FML_DCHECK (cfg : BuildConfig) (condition : Bool) : Bool :=
  !cfg.NDEBUG_unset || condition

/-- The shim `vkQueueSubmitThreadsafe` (lines 255-262): the result of the
callee and the events in order. -/
def vkQueueSubmitThreadsafe (env : Env) (g : Globals)
    (queue submitCount pSubmits fence : Nat) : Outcome (Int × List Event) :=
  if g.g_non_threadsafe_vkQueueSubmit = 0 then .nullCall
  else
    .returned
      (env.callQueueSubmit g.g_non_threadsafe_vkQueueSubmit queue submitCount pSubmits fence,
       [.lock,
        .queueSubmit g.g_non_threadsafe_vkQueueSubmit queue submitCount pSubmits fence,
        .unlock])

/-- The shim `vkQueueWaitIdleThreadsafe` (lines 264-267). -/
def vkQueueWaitIdleThreadsafe (env : Env) (g : Globals) (queue : Nat) :
    Outcome (Int × List Event) :=
  if g.g_non_threadsafe_vkQueueWaitIdle = 0 then .nullCall
  else
    .returned
      (env.callQueueWaitIdle g.g_non_threadsafe_vkQueueWaitIdle queue,
       [.lock, .queueWaitIdle g.g_non_threadsafe_vkQueueWaitIdle queue, .unlock])

/-- The method `VulkanProcTable::AcquireThreadsafeSubmitQueue` (lines 285-300):
the returned pointer and the globals afterwards. The guard reads
`GetInstanceProcAddr`, the call goes through `GetDeviceProcAddr`. -/
def AcquireThreadsafeSubmitQueue (env : Env) (t : VulkanProcTable)
    (device : VulkanHandle) (g : Globals) : Outcome (Nat × Globals) :=
  if device.toBool = false ∨ t.procs "GetInstanceProcAddr" = 0 then .returned (0, g)
  else if t.procs "GetDeviceProcAddr" = 0 then .nullCall
  else
    let non_threadsafe_vkQueueSubmit :=
      env.callGetDeviceProcAddr (t.procs "GetDeviceProcAddr") device.handle_ "vkQueueSubmit"
    if FML_DCHECK env.cfg
        (g.g_non_threadsafe_vkQueueSubmit == 0 ||
         g.g_non_threadsafe_vkQueueSubmit == non_threadsafe_vkQueueSubmit) = false
    then .dcheckFailed
    else
      .returned (env.addr_vkQueueSubmitThreadsafe.val,
        { g with g_non_threadsafe_vkQueueSubmit := non_threadsafe_vkQueueSubmit })

/-- The method `VulkanProcTable::AcquireThreadsafeQueueWaitIdle` (lines 302-317). -/
def AcquireThreadsafeQueueWaitIdle (env : Env) (t : VulkanProcTable)
    (device : VulkanHandle) (g : Globals) : Outcome (Nat × Globals) :=
  if device.toBool = false ∨ t.procs "GetInstanceProcAddr" = 0 then .returned (0, g)
  else if t.procs "GetDeviceProcAddr" = 0 then .nullCall
  else
    let non_threadsafe_vkQueueWaitIdle :=
      env.callGetDeviceProcAddr (t.procs "GetDeviceProcAddr") device.handle_ "vkQueueWaitIdle"
    if FML_DCHECK env.cfg
        (g.g_non_threadsafe_vkQueueWaitIdle == 0 ||
         g.g_non_threadsafe_vkQueueWaitIdle == non_threadsafe_vkQueueWaitIdle) = false
    then .dcheckFailed
    else
      .returned (env.addr_vkQueueWaitIdleThreadsafe.val,
        { g with g_non_threadsafe_vkQueueWaitIdle := non_threadsafe_vkQueueWaitIdle })

/-! ## Call sequences on one table -/

/-- A call of one of the two tier-setup operations. -/
inductive Call where
  | setupInstance (handle : VulkanHandle)
  | setupDevice (handle : VulkanHandle)
deriving DecidableEq, Repr

/-- Performs one call. -/
def Call.run (env : Env) (t : VulkanProcTable) : Call → VulkanProcTable × Bool
  | .setupInstance h => SetupInstanceProcAddresses env t h
  | .setupDevice h => SetupDeviceProcAddresses env t h

/-- Performs the calls in order; the log pairs each call with what it returned. -/
def runCalls (env : Env) : List Call → VulkanProcTable →
    VulkanProcTable × List (Call × Bool)
  | [], t => (t, [])
  | c :: cs, t =>
    let r := c.run env t
    let rest := runCalls env cs r.1
    (rest.1, (c, r.2) :: rest.2)

/-- No call of `SetupDeviceProcAddresses` in the log returned `true`. -/
def noDeviceSuccess (log : List (Call × Bool)) : Prop :=
  ∀ h, (Call.setupDevice h, true) ∉ log

/-! ## Test fixtures -/

/-- A build for a desktop host, assertions compiled in. -/
def debugCfg : BuildConfig :=
  { FML_OS_ANDROID := false, OS_FUCHSIA := false, TEST_VULKAN_PROCS := false,
    VULKAN_LINK_STATICALLY := false, NDEBUG_unset := true }

/-- A world in which the loader lives at address 1 and the device resolver at
address 2, `missing` names the procs neither resolves (everything else
resolves to address 7) and no library opens. -/
def testEnv (cfg : BuildConfig) (missing : List String) : Env :=
  { cfg := cfg
    Create := fun _ => 0
    CreateForCurrentProcess := 0
    ResolveSymbol := fun _ _ => 0
    vkGetInstanceProcAddr := ⟨1, by decide⟩
    callGetInstanceProcAddr := fun _ _ n =>
      if n ∈ missing then 0 else if n = "vkGetDeviceProcAddr" then 2 else 7
    callGetDeviceProcAddr := fun _ _ n => if n ∈ missing then 0 else 7
    callQueueSubmit := fun f queue submitCount pSubmits fence =>
      f + queue + submitCount + pSubmits + fence
    callQueueWaitIdle := fun f queue => f + queue
    addr_vkQueueSubmitThreadsafe := ⟨100, by decide⟩
    addr_vkQueueWaitIdleThreadsafe := ⟨101, by decide⟩ }

/-- Every name resolves. -/
def envAll : Env := testEnv debugCfg []

/-- A table built from an injected bootstrap function at address 1. -/
def tableAll : VulkanProcTable := VulkanProcTable.fromProc envAll 1

/-- Only the primary name of the instance-tier fallback pair is missing. -/
def envNoPrimary : Env := testEnv debugCfg ["vkGetPhysicalDeviceMemoryProperties2"]

/-- The mandatory name `vkGetDeviceProcAddr` is missing. -/
def envNoDeviceResolver : Env := testEnv debugCfg ["vkGetDeviceProcAddr"]

/-- Both optional debug-report names are missing. -/
def envNoDebugReport : Env :=
  testEnv debugCfg ["vkCreateDebugReportCallbackEXT", "vkDestroyDebugReportCallbackEXT"]

/-- The table `tableAll` after instance setup for the instance 3. -/
def tableReady : VulkanProcTable :=
  (SetupInstanceProcAddresses envAll tableAll ⟨3, none⟩).1

/-- Neither queue operation resolves at the device level. -/
def envNoQueue : Env := testEnv debugCfg ["vkQueueSubmit", "vkQueueWaitIdle"]

/-- The shim slots before any acquisition. -/
def globalsEmpty : Globals := ⟨0, 0⟩

/-- The shim slots after an acquisition that resolved both operations to 7. -/
def globalsSeven : Globals := ⟨7, 7⟩

/-- One world in which the two debug-report names resolve for every instance
but the instance 5; every other name resolves for every instance. -/
def envDebugReportNotFor5 : Env :=
  { testEnv debugCfg [] with
    callGetInstanceProcAddr := fun _ inst n =>
                                 if inst = 5 ∧ n ∈ ["vkCreateDebugReportCallbackEXT",
                                                    "vkDestroyDebugReportCallbackEXT"] then 0
                                 else if n = "vkGetDeviceProcAddr" then 2 else 7 }

/-- A table built in that world from the bootstrap function at address 1 and
set up for the instance 3. -/
def tableSetUpFor3 : VulkanProcTable :=
  (SetupInstanceProcAddresses envDebugReportNotFor5
    (VulkanProcTable.fromProc envDebugReportNotFor5 1) ⟨3, none⟩).1

/-- The instance-tier fallback pair. -/
def memoryProperties2 : Stmt :=
  .either "GetPhysicalDeviceMemoryProperties2" "GetPhysicalDeviceMemoryProperties2KHR"

/-! ## Vocabulary of the statements -/

/-- The proc members a macro invocation may assign. -/
def Stmt.targets : Stmt → List String
  | .proc name => [name]
  | .either name name2 => [name, name2]

/-- The proc members a statement list may assign, in order. -/
def targets : List Stmt → List String
  | [] => []
  | s :: rest => s.targets ++ targets rest

/-- The proc member through which `AcquireProc` resolves in a context. -/
def Context.resolver : Context → String
  | .ofInstance _ => "GetInstanceProcAddr"
  | .ofDevice _ => "GetDeviceProcAddr"

/-- A mandatory entry resolves: its name does, or for a fallback pair one of
its two names does. -/
def Stmt.resolves (env : Env) (t : VulkanProcTable) (context : Context) : Stmt → Bool
  | .proc name => AcquireProc env t (some ("vk" ++ name)) context != 0
  | .either name name2 =>
    AcquireProc env t (some ("vk" ++ name)) context != 0 ||
    AcquireProc env t (some ("vk" ++ name2)) context != 0

/-- The members of an executed macro invocation hold what `AcquireProc` gave
on the table `t0` the setup started from; the second member of a pair is
assigned only when the first came back null, and keeps its old value otherwise. -/
def Stmt.stored (env : Env) (context : Context) (t0 t1 : VulkanProcTable) : Stmt → Prop
  | .proc name => t1.procs name = AcquireProc env t0 (some ("vk" ++ name)) context
  | .either name name2 =>
    t1.procs name = AcquireProc env t0 (some ("vk" ++ name)) context ∧
    t1.procs name2 =
      if AcquireProc env t0 (some ("vk" ++ name)) context = 0
      then AcquireProc env t0 (some ("vk" ++ name2)) context
      else t0.procs name2

/-- The context a tier-setup call resolves in. -/
def Call.context : Call → Context
  | .setupInstance h => .ofInstance h
  | .setupDevice h => .ofDevice h

/-- The mandatory macro invocations of a tier-setup call. -/
def Call.stmts (cfg : BuildConfig) : Call → List Stmt
  | .setupInstance _ => instanceStmts cfg
  | .setupDevice _ => deviceStmts cfg

/-- The macro invocations a tier-setup call has after its mandatory ones. -/
def Call.optionalStmts : Call → List Stmt
  | .setupInstance _ => debugReportStmts
  | .setupDevice _ => []

/-- The three construction modes. -/
inductive Construction where
  | byDefault
  | byPath (so_path : String)
  | byProc (get_instance_proc_addr : Nat)
deriving DecidableEq, Repr

/-- The table a construction mode yields. -/
def Construction.build (env : Env) : Construction → VulkanProcTable
  | .byDefault => VulkanProcTable.fromDefault env
  | .byPath so_path => VulkanProcTable.fromPath env so_path
  | .byProc p => VulkanProcTable.fromProc env p

/-- The library handle that `OpenLibraryHandle` obtains for a path. -/
def openedLibrary (env : Env) (path : String) : Nat :=
  if env.cfg.VULKAN_LINK_STATICALLY then env.CreateForCurrentProcess else env.Create path

/-- The bootstrap entry point `vkGetInstanceProcAddr` cannot be obtained: the
library fails to open or (in a dynamically linked build) the symbol does not
resolve, or the injected function is null. -/
def Construction.bootstrapMissing (env : Env) : Construction → Prop
  | .byDefault =>
    openedLibrary env "libvulkan.so" = 0 ∨
    (env.cfg.VULKAN_LINK_STATICALLY = false ∧
      env.ResolveSymbol (openedLibrary env "libvulkan.so") "vkGetInstanceProcAddr" = 0)
  | .byPath so_path =>
    openedLibrary env so_path = 0 ∨
    (env.cfg.VULKAN_LINK_STATICALLY = false ∧
      env.ResolveSymbol (openedLibrary env so_path) "vkGetInstanceProcAddr" = 0)
  | .byProc p => p = 0

/-! ## Lemmas on one macro invocation -/

theorem AcquireProc_congr (env : Env) (t t1 : VulkanProcTable) (n : Option String)
    (context : Context) (h : t1.procs context.resolver = t.procs context.resolver) :
    AcquireProc env t1 n context = AcquireProc env t n context := by
  cases context <;> cases n <;> simp_all [AcquireProc, Context.resolver]

theorem setProc_procs_ne (t : VulkanProcTable) (name k : String) (p : Nat)
    (h : k ≠ name) : (t.setProc name p).procs k = t.procs k := by
  simp [VulkanProcTable.setProc, h]

theorem setProc_procs_self (t : VulkanProcTable) (name : String) (p : Nat) :
    (t.setProc name p).procs name = p := by
  simp [VulkanProcTable.setProc]

theorem exec_fields (env : Env) (context : Context) (s : Stmt) (t : VulkanProcTable) :
    (s.exec env context t).1.instance_ = t.instance_ ∧
    (s.exec env context t).1.device_ = t.device_ ∧
    (s.exec env context t).1.handle_ = t.handle_ ∧
    (s.exec env context t).1.acquired_mandatory_proc_addresses_ =
      t.acquired_mandatory_proc_addresses_ := by
  cases s with
  | proc name => simp [Stmt.exec, ACQUIRE_PROC, VulkanProcTable.setProc]
  | either name name2 =>
    simp only [Stmt.exec, ACQUIRE_PROC_EITHER]
    split <;> simp [VulkanProcTable.setProc]

theorem exec_procs_of_not_mem (env : Env) (context : Context) (s : Stmt)
    (t : VulkanProcTable) (k : String) (hk : k ∉ s.targets) :
    (s.exec env context t).1.procs k = t.procs k := by
  cases s with
  | proc name =>
    simp only [Stmt.targets, List.mem_singleton] at hk
    simp [Stmt.exec, ACQUIRE_PROC, setProc_procs_ne _ _ _ _ hk]
  | either name name2 =>
    simp only [Stmt.targets, List.mem_cons, List.mem_singleton, List.not_mem_nil,
      or_false, not_or] at hk
    simp only [Stmt.exec, ACQUIRE_PROC_EITHER]
    split
    · simp [setProc_procs_ne _ _ _ _ hk.1]
    · simp [setProc_procs_ne _ _ _ _ hk.1, setProc_procs_ne _ _ _ _ hk.2]

theorem resolves_congr (env : Env) (t t1 : VulkanProcTable) (context : Context)
    (s : Stmt) (h : t1.procs context.resolver = t.procs context.resolver) :
    s.resolves env t1 context = s.resolves env t context := by
  cases s <;> simp [Stmt.resolves, AcquireProc_congr env t t1 _ context h]

theorem exec_snd (env : Env) (context : Context) (s : Stmt) (t : VulkanProcTable)
    (hr : context.resolver ∉ s.targets) :
    (s.exec env context t).2 = s.resolves env t context := by
  cases s with
  | proc name => simp [Stmt.exec, ACQUIRE_PROC, Stmt.resolves]
  | either name name2 =>
    simp only [Stmt.targets, List.mem_cons, List.mem_singleton, List.not_mem_nil,
      or_false, not_or] at hr
    have hc := AcquireProc_congr env t
      (t.setProc name (AcquireProc env t (some ("vk" ++ name)) context))
      (some ("vk" ++ name2)) context (setProc_procs_ne _ _ _ _ hr.1)
    simp only [Stmt.exec, ACQUIRE_PROC_EITHER, Stmt.resolves, hc]
    split <;> simp_all

theorem exec_stored (env : Env) (context : Context) (s : Stmt) (t : VulkanProcTable)
    (hr : context.resolver ∉ s.targets) (hn : s.targets.Nodup) :
    s.stored env context t (s.exec env context t).1 := by
  cases s with
  | proc name => simp [Stmt.exec, ACQUIRE_PROC, Stmt.stored, setProc_procs_self]
  | either name name2 =>
    simp only [Stmt.targets, List.mem_cons, List.mem_singleton, List.not_mem_nil,
      or_false, not_or] at hr
    have hne : name ≠ name2 := by
      intro h
      simp [Stmt.targets, h] at hn
    have hc := AcquireProc_congr env t
      (t.setProc name (AcquireProc env t (some ("vk" ++ name)) context))
      (some ("vk" ++ name2)) context (setProc_procs_ne _ _ _ _ hr.1)
    simp only [Stmt.exec, ACQUIRE_PROC_EITHER, Stmt.stored, hc]
    split
    · rename_i hp
      have hp0 : AcquireProc env t (some ("vk" ++ name)) context ≠ 0 := by simpa using hp
      simp [setProc_procs_self, setProc_procs_ne _ _ _ _ (Ne.symm hne), hp0]
    · rename_i hp
      have hp0 : AcquireProc env t (some ("vk" ++ name)) context = 0 := by simpa using hp
      simp [setProc_procs_self, setProc_procs_ne _ _ _ _ hne, hp0]

theorem stored_transfer (env : Env) (context : Context) (s : Stmt)
    (t0 t0a t1 t2 : VulkanProcTable)
    (hres : t0a.procs context.resolver = t0.procs context.resolver)
    (hbase : ∀ k ∈ s.targets, t0a.procs k = t0.procs k)
    (hfin : ∀ k ∈ s.targets, t2.procs k = t1.procs k)
    (h : s.stored env context t0a t1) : s.stored env context t0 t2 := by
  cases s with
  | proc name =>
    simp only [Stmt.stored] at h ⊢
    rw [hfin name (by simp [Stmt.targets]), h, AcquireProc_congr env t0 t0a _ context hres]
  | either name name2 =>
    simp only [Stmt.stored] at h ⊢
    rw [hfin name (by simp [Stmt.targets]), hfin name2 (by simp [Stmt.targets]), h.1, h.2,
      AcquireProc_congr env t0 t0a _ context hres,
      AcquireProc_congr env t0 t0a _ context hres, hbase name2 (by simp [Stmt.targets])]
    exact ⟨rfl, rfl⟩

/-! ## Lemmas on statement lists -/

theorem mem_targets {l : List Stmt} {k : String} :
    k ∈ targets l ↔ ∃ s ∈ l, k ∈ s.targets := by
  induction l with
  | nil => simp [targets]
  | cons a l ih => simp [targets, ih]

theorem targets_append (l1 l2 : List Stmt) :
    targets (l1 ++ l2) = targets l1 ++ targets l2 := by
  induction l1 with
  | nil => simp [targets]
  | cons a l ih => simp [targets, ih]

theorem execStmts_fields (env : Env) (context : Context) (l : List Stmt)
    (t : VulkanProcTable) :
    (execStmts env context l t).1.instance_ = t.instance_ ∧
    (execStmts env context l t).1.device_ = t.device_ ∧
    (execStmts env context l t).1.handle_ = t.handle_ ∧
    (execStmts env context l t).1.acquired_mandatory_proc_addresses_ =
      t.acquired_mandatory_proc_addresses_ := by
  induction l generalizing t with
  | nil => simp [execStmts]
  | cons s rest ih =>
    have hs := exec_fields env context s t
    simp only [execStmts]
    split
    · have h := ih (s.exec env context t).1
      exact ⟨h.1.trans hs.1, h.2.1.trans hs.2.1, h.2.2.1.trans hs.2.2.1,
        h.2.2.2.trans hs.2.2.2⟩
    · exact hs

theorem execStmts_procs_of_not_mem (env : Env) (context : Context) (l : List Stmt)
    (t : VulkanProcTable) (k : String) (hk : k ∉ targets l) :
    (execStmts env context l t).1.procs k = t.procs k := by
  induction l generalizing t with
  | nil => simp [execStmts]
  | cons s rest ih =>
    simp only [targets, List.mem_append, not_or] at hk
    have hs := exec_procs_of_not_mem env context s t k hk.1
    simp only [execStmts]
    split
    · exact (ih (s.exec env context t).1 hk.2).trans hs
    · exact hs

theorem execStmts_success (env : Env) (context : Context) (l : List Stmt)
    (t : VulkanProcTable) (hr : context.resolver ∉ targets l)
    (hall : ∀ s ∈ l, s.resolves env t context = true) :
    (execStmts env context l t).2 = true := by
  induction l generalizing t with
  | nil => simp [execStmts]
  | cons s rest ih =>
    simp only [targets, List.mem_append, not_or] at hr
    have h2 : (s.exec env context t).2 = true := by
      rw [exec_snd env context s t hr.1]
      exact hall s (by simp)
    have hres := exec_procs_of_not_mem env context s t _ hr.1
    simp only [execStmts, h2, if_true]
    apply ih _ hr.2
    intro x hx
    rw [resolves_congr env t _ context x hres]
    exact hall x (by simp [hx])

theorem execStmts_stored (env : Env) (context : Context) (l : List Stmt)
    (t : VulkanProcTable) (hr : context.resolver ∉ targets l)
    (hn : (targets l).Nodup)
    (hall : ∀ s ∈ l, s.resolves env t context = true) :
    ∀ s ∈ l, s.stored env context t (execStmts env context l t).1 := by
  induction l generalizing t with
  | nil => simp
  | cons a rest ih =>
    simp only [targets, List.mem_append, not_or] at hr
    simp only [targets] at hn
    have hn3 := List.nodup_append.mp hn
    have h2 : (a.exec env context t).2 = true := by
      rw [exec_snd env context a t hr.1]
      exact hall a (by simp)
    have hres := exec_procs_of_not_mem env context a t _ hr.1
    have hexec : execStmts env context (a :: rest) t =
        execStmts env context rest (a.exec env context t).1 := by
      simp [execStmts, h2]
    rw [hexec]
    intro s hs
    rcases List.mem_cons.mp hs with rfl | hs
    · refine stored_transfer env context s t t _ _ rfl (fun _ _ => rfl) ?_
        (exec_stored env context s t hr.1 hn3.1)
      intro k hk
      exact execStmts_procs_of_not_mem env context rest _ k
        (fun hk2 => hn3.2.2 hk hk2)
    · have hall2 : ∀ x ∈ rest, x.resolves env (a.exec env context t).1 context = true := by
        intro x hx
        rw [resolves_congr env t _ context x hres]
        exact hall x (by simp [hx])
      refine stored_transfer env context s t (a.exec env context t).1 _ _ hres ?_
        (fun _ _ => rfl) (ih _ hr.2 hn3.2.1 hall2 s hs)
      intro k hk
      exact exec_procs_of_not_mem env context a t k
        (fun hk2 => hn3.2.2 hk2 (mem_targets.mpr ⟨s, hs, hk⟩))

/-- The first statement that does not resolve splits the list. -/
theorem exists_first_failure (env : Env) (context : Context) (t : VulkanProcTable)
    (l : List Stmt) (h : ∃ s ∈ l, s.resolves env t context = false) :
    ∃ pre s post, l = pre ++ s :: post ∧
      (∀ x ∈ pre, x.resolves env t context = true) ∧
      s.resolves env t context = false := by
  induction l with
  | nil => simp at h
  | cons a rest ih =>
    by_cases ha : a.resolves env t context = true
    · obtain ⟨s, hs, hf⟩ := h
      rcases List.mem_cons.mp hs with rfl | hs
      · simp [ha] at hf
      · obtain ⟨pre, s1, post, hl, hpre, hs1⟩ := ih ⟨s, hs, hf⟩
        refine ⟨a :: pre, s1, post, by simp [hl], ?_, hs1⟩
        intro x hx
        rcases List.mem_cons.mp hx with rfl | hx
        · exact ha
        · exact hpre x hx
    · exact ⟨[], a, rest, rfl, by simp, by simpa using ha⟩

theorem execStmts_append_failure (env : Env) (context : Context) (t : VulkanProcTable)
    (pre : List Stmt) (s : Stmt) (post : List Stmt)
    (hr : context.resolver ∉ targets (pre ++ s :: post))
    (hpre : ∀ x ∈ pre, x.resolves env t context = true)
    (hs : s.resolves env t context = false) :
    execStmts env context (pre ++ s :: post) t =
      ((s.exec env context (execStmts env context pre t).1).1, false) := by
  induction pre generalizing t with
  | nil =>
    simp only [List.nil_append, targets, List.mem_append, not_or] at hr
    have h2 : (s.exec env context t).2 = false := by
      rw [exec_snd env context s t hr.1]; exact hs
    simp [execStmts, h2]
  | cons a pre ih =>
    simp only [List.cons_append, targets, List.mem_append, not_or] at hr
    have h2 : (a.exec env context t).2 = true := by
      rw [exec_snd env context a t hr.1]
      exact hpre a (by simp)
    have hres := exec_procs_of_not_mem env context a t _ hr.1
    have hr2 : context.resolver ∉ targets (pre ++ s :: post) := by
      intro hmem
      exact hr.2 (by simpa [targets] using hmem)
    simp only [List.cons_append, execStmts, h2, if_true]
    apply ih _ hr2
    · intro x hx
      rw [resolves_congr env t _ context x hres]
      exact hpre x (by simp [hx])
    · rw [resolves_congr env t _ context s hres]
      exact hs

/-! ## Facts on the statement lists of the two tiers -/

theorem resolver_not_mem_targets (cfg : BuildConfig) (c : Call) :
    c.context.resolver ∉ targets (c.stmts cfg ++ c.optionalStmts) := by
  rcases cfg with ⟨a, f, ts, st, dbg⟩
  cases c <;> cases a <;> cases f <;> cases ts <;>
    simp only [Call.stmts, Call.optionalStmts, Call.context, Context.resolver, instanceStmts,
      deviceStmts, if_true, if_false, Bool.false_eq_true] <;>
    decide

theorem targets_nodup (cfg : BuildConfig) (c : Call) :
    (targets (c.stmts cfg ++ c.optionalStmts)).Nodup := by
  rcases cfg with ⟨a, f, ts, st, dbg⟩
  cases c <;> cases a <;> cases f <;> cases ts <;>
    simp only [Call.stmts, Call.optionalStmts, Call.context, Context.resolver, instanceStmts,
      deviceStmts, if_true, if_false, Bool.false_eq_true] <;>
    decide

theorem resolver_not_mem_stmts (cfg : BuildConfig) (c : Call) :
    c.context.resolver ∉ targets (c.stmts cfg) := by
  intro h
  exact resolver_not_mem_targets cfg c (by rw [targets_append]; exact List.mem_append_left _ h)

theorem resolver_not_mem_optional (cfg : BuildConfig) (c : Call) :
    c.context.resolver ∉ targets c.optionalStmts := by
  intro h
  exact resolver_not_mem_targets cfg c (by rw [targets_append]; exact List.mem_append_right _ h)

theorem not_mem_optional_of_mem_stmts (cfg : BuildConfig) (c : Call) (k : String)
    (hk : k ∈ targets (c.stmts cfg)) : k ∉ targets c.optionalStmts := by
  have h := targets_nodup cfg c
  rw [targets_append] at h
  exact fun hk2 => (List.nodup_append.mp h).2.2 hk hk2

/-! ## Lemmas on the two tier-setup operations -/

theorem run_of_failure (env : Env) (t : VulkanProcTable) (c : Call)
    (hf : (execStmts env c.context (c.stmts env.cfg) t).2 = false) :
    c.run env t = ((execStmts env c.context (c.stmts env.cfg) t).1, false) := by
  cases c <;>
    simp [Call.run, SetupInstanceProcAddresses, SetupDeviceProcAddresses, Call.context,
      Call.stmts] at hf ⊢ <;> simp [hf]

theorem run_of_success (env : Env) (t : VulkanProcTable) (c : Call)
    (hs : (execStmts env c.context (c.stmts env.cfg) t).2 = true) :
    (c.run env t).2 = true ∧
    (c.run env t).1.procs =
      (execStmts env c.context c.optionalStmts
        (execStmts env c.context (c.stmts env.cfg) t).1).1.procs := by
  cases c <;>
    simp [Call.run, SetupInstanceProcAddresses, SetupDeviceProcAddresses, Call.context,
      Call.stmts, Call.optionalStmts, execStmts] at hs ⊢ <;> simp [hs]

theorem run_handles (env : Env) (t : VulkanProcTable) (c : Call) :
    ((c.run env t).2 = false →
      (c.run env t).1.instance_ = t.instance_ ∧ (c.run env t).1.device_ = t.device_) ∧
    ((c.run env t).2 = true →
      match c with
      | .setupInstance h =>
        (c.run env t).1.instance_ = ⟨h.handle_, none⟩ ∧ (c.run env t).1.device_ = t.device_
      | .setupDevice h =>
        (c.run env t).1.device_ = ⟨h.handle_, none⟩ ∧
        (c.run env t).1.instance_ = t.instance_) := by
  cases c with
  | setupInstance h =>
    have h1 := execStmts_fields env (.ofInstance h) (instanceStmts env.cfg) t
    have h2 := execStmts_fields env (.ofInstance h) debugReportStmts
      (execStmts env (.ofInstance h) (instanceStmts env.cfg) t).1
    simp only [Call.run, SetupInstanceProcAddresses]
    split
    · simp [h1.1, h1.2.1]
    · simp [h2.2.1, h1.2.1]
  | setupDevice h =>
    have h1 := execStmts_fields env (.ofDevice h) (deviceStmts env.cfg) t
    simp only [Call.run, SetupDeviceProcAddresses]
    split
    · simp [h1.1, h1.2.1]
    · simp [h1.1]

theorem run_success_of_resolves (env : Env) (t : VulkanProcTable) (c : Call)
    (hall : ∀ s ∈ c.stmts env.cfg, s.resolves env t c.context = true) :
    (c.run env t).2 = true ∧
    (∀ s ∈ c.stmts env.cfg, s.stored env c.context t (c.run env t).1) := by
  have hs := execStmts_success env c.context (c.stmts env.cfg) t
    (resolver_not_mem_stmts env.cfg c) hall
  have hn : (targets (c.stmts env.cfg)).Nodup := by
    have h := targets_nodup env.cfg c
    rw [targets_append] at h
    exact (List.nodup_append.mp h).1
  have hst := execStmts_stored env c.context (c.stmts env.cfg) t
    (resolver_not_mem_stmts env.cfg c) hn hall
  obtain ⟨h2, hp⟩ := run_of_success env t c hs
  refine ⟨h2, ?_⟩
  intro s hmem
  refine stored_transfer env c.context s t t _ _ rfl (fun _ _ => rfl) ?_ (hst s hmem)
  intro k hk
  rw [hp]
  exact execStmts_procs_of_not_mem env c.context c.optionalStmts _ k
    (not_mem_optional_of_mem_stmts env.cfg c k (mem_targets.mpr ⟨s, hmem, hk⟩))

/-! ## The claims -/

/-- C6. When a mandatory entry of a tier does not resolve (for a fallback pair:
neither name does), the tier-setup call `c` (`SetupInstanceProcAddresses` or
`SetupDeviceProcAddresses`) returns false and leaves both stored handles as they
were, so `AreInstanceProcsSetup`, `AreDeviceProcsSetup` and `IsValid` keep their
value. The statements `pre` before the first failing one `s` have their members
holding what was resolved, the members of the statements after `s` (the optional
ones included) and every member not named up to `s` hold their old value. -/
theorem setup_failure_is_not_committed (env : Env) (t : VulkanProcTable) (c : Call)
    (hfail : ∃ s ∈ c.stmts env.cfg, s.resolves env t c.context = false) :
    (c.run env t).2 = false ∧
    (c.run env t).1.instance_ = t.instance_ ∧
    (c.run env t).1.device_ = t.device_ ∧
    AreInstanceProcsSetup (c.run env t).1 = AreInstanceProcsSetup t ∧
    AreDeviceProcsSetup (c.run env t).1 = AreDeviceProcsSetup t ∧
    IsValid (c.run env t).1 = IsValid t ∧
    ∃ pre s post, c.stmts env.cfg = pre ++ s :: post ∧
      (∀ x ∈ pre, x.resolves env t c.context = true) ∧
      s.resolves env t c.context = false ∧
      (∀ x ∈ pre, x.stored env c.context t (c.run env t).1) ∧
      (∀ k ∈ targets (post ++ c.optionalStmts), (c.run env t).1.procs k = t.procs k) ∧
      (∀ k, k ∉ targets (pre ++ [s]) → (c.run env t).1.procs k = t.procs k) := by
  obtain ⟨pre, s, post, hl, hpre, hs⟩ := exists_first_failure env c.context t _ hfail
  have hr := resolver_not_mem_stmts env.cfg c
  have hnd := targets_nodup env.cfg c
  rw [hl] at hr
  have hex := execStmts_append_failure env c.context t pre s post hr hpre hs
  rw [← hl] at hex
  have hrun := run_of_failure env t c (by rw [hex])
  rw [hex] at hrun
  have hh := (run_handles env t c).1 (by rw [hrun])
  have hrpre : c.context.resolver ∉ targets pre := by
    intro h
    exact hr (by rw [targets_append]; exact List.mem_append_left _ h)
  have hsplit : targets (c.stmts env.cfg ++ c.optionalStmts) =
      targets pre ++ (s.targets ++ targets (post ++ c.optionalStmts)) := by
    rw [hl]
    simp [targets_append, targets]
  rw [hsplit] at hnd
  have hnd1 := List.nodup_append.mp hnd
  have hnd2 := List.nodup_append.mp hnd1.2.1
  have hunch : ∀ k, k ∉ targets pre → k ∉ s.targets → (c.run env t).1.procs k = t.procs k := by
    intro k hk1 hk2
    rw [hrun]
    exact (exec_procs_of_not_mem env c.context s _ k hk2).trans
      (execStmts_procs_of_not_mem env c.context pre t k hk1)
  refine ⟨by rw [hrun], hh.1, hh.2, by simp [AreInstanceProcsSetup, hh.1],
    by simp [AreDeviceProcsSetup, hh.2], by simp [IsValid, hh.1, hh.2],
    pre, s, post, hl, hpre, hs, ?_, ?_, ?_⟩
  · intro x hx
    refine stored_transfer env c.context x t t _ _ rfl (fun _ _ => rfl) ?_
      (execStmts_stored env c.context pre t hrpre hnd1.1 hpre x hx)
    intro k hk
    rw [hrun]
    refine exec_procs_of_not_mem env c.context s _ k (fun hk2 => ?_)
    exact hnd1.2.2 (mem_targets.mpr ⟨x, hx, hk⟩) (List.mem_append_left _ hk2)
  · intro k hk
    refine hunch k (fun hk1 => ?_) (fun hk2 => ?_)
    · exact hnd1.2.2 hk1 (List.mem_append_right _ hk)
    · exact hnd2.2.2 hk2 hk
  · intro k hk
    rw [targets_append] at hk
    simp only [targets, List.append_nil, List.mem_append, not_or] at hk
    exact hunch k hk.1 hk.2

/-- C6, at an instance setup in which `vkGetDeviceProcAddr` is the missing name. -/
theorem setup_failure_is_not_committed_witness :
    (∃ s ∈ (Call.setupInstance ⟨5, none⟩).stmts envNoDeviceResolver.cfg,
      s.resolves envNoDeviceResolver tableAll (Call.setupInstance ⟨5, none⟩).context = false) ∧
    ((Call.setupInstance ⟨5, none⟩).run envNoDeviceResolver tableAll).2 = false ∧
    IsValid ((Call.setupInstance ⟨5, none⟩).run envNoDeviceResolver tableAll).1 =
      IsValid tableAll :=
  have h : ∃ s ∈ (Call.setupInstance ⟨5, none⟩).stmts envNoDeviceResolver.cfg,
      s.resolves envNoDeviceResolver tableAll (Call.setupInstance ⟨5, none⟩).context = false :=
    ⟨.proc "GetDeviceProcAddr", by decide, by decide⟩
  have r := setup_failure_is_not_committed envNoDeviceResolver tableAll
    (Call.setupInstance ⟨5, none⟩) h
  ⟨h, r.1, r.2.2.2.2.2.1⟩

/-- C1, as stated, fails: with only `vkGetPhysicalDeviceMemoryProperties2`
missing, every other mandatory instance-level name resolves and the KHR alias
resolves, `SetupInstanceProcAddresses` returns true, and the primary member
`GetPhysicalDeviceMemoryProperties2` holds null afterwards. -/
theorem fallback_primary_member_is_null :
    (∀ s ∈ instanceStmts envNoPrimary.cfg, s ≠ memoryProperties2 →
      s.resolves envNoPrimary (VulkanProcTable.fromProc envNoPrimary 1)
        (.ofInstance ⟨5, none⟩) = true) ∧
    AcquireProc envNoPrimary (VulkanProcTable.fromProc envNoPrimary 1)
      (some "vkGetPhysicalDeviceMemoryProperties2") (.ofInstance ⟨5, none⟩) = 0 ∧
    AcquireProc envNoPrimary (VulkanProcTable.fromProc envNoPrimary 1)
      (some "vkGetPhysicalDeviceMemoryProperties2KHR") (.ofInstance ⟨5, none⟩) ≠ 0 ∧
    (SetupInstanceProcAddresses envNoPrimary (VulkanProcTable.fromProc envNoPrimary 1)
      ⟨5, none⟩).2 = true ∧
    ¬ (SetupInstanceProcAddresses envNoPrimary (VulkanProcTable.fromProc envNoPrimary 1)
      ⟨5, none⟩).1.procs "GetPhysicalDeviceMemoryProperties2" ≠ 0 := by
  decide

/-- C1, amended. For a fallback pair `name`, `name2` of a tier-setup call (the
pair of `SetupInstanceProcAddresses`, or one of the four pairs of
`SetupDeviceProcAddresses`): when every other mandatory entry resolves, `name`
does not resolve and `name2` does, the call returns true, the member `name2`
holds the resolved non-null pointer and the primary member `name` holds null. -/
theorem fallback_resolves_into_secondary_member (env : Env) (t : VulkanProcTable)
    (c : Call) (name name2 : String)
    (hmem : Stmt.either name name2 ∈ c.stmts env.cfg)
    (hothers : ∀ s ∈ c.stmts env.cfg, s ≠ Stmt.either name name2 →
      s.resolves env t c.context = true)
    (h1 : AcquireProc env t (some ("vk" ++ name)) c.context = 0)
    (h2 : AcquireProc env t (some ("vk" ++ name2)) c.context ≠ 0) :
    (c.run env t).2 = true ∧
    (c.run env t).1.procs name = 0 ∧
    (c.run env t).1.procs name2 = AcquireProc env t (some ("vk" ++ name2)) c.context ∧
    (c.run env t).1.procs name2 ≠ 0 := by
  have hall : ∀ s ∈ c.stmts env.cfg, s.resolves env t c.context = true := by
    intro s hs
    by_cases he : s = Stmt.either name name2
    · subst he
      simp [Stmt.resolves, h2]
    · exact hothers s hs he
  obtain ⟨hok, hst⟩ := run_success_of_resolves env t c hall
  have h := hst _ hmem
  simp only [Stmt.stored, h1, if_true] at h
  exact ⟨hok, h.1, h.2, by rw [h.2]; exact h2⟩

/-- C1, amended, at the instance tier with only the primary name missing. -/
theorem fallback_resolves_into_secondary_member_witness :
    ((Call.setupInstance ⟨5, none⟩).run envNoPrimary tableAll).2 = true ∧
    ((Call.setupInstance ⟨5, none⟩).run envNoPrimary tableAll).1.procs
      "GetPhysicalDeviceMemoryProperties2" = 0 ∧
    ((Call.setupInstance ⟨5, none⟩).run envNoPrimary tableAll).1.procs
      "GetPhysicalDeviceMemoryProperties2KHR" ≠ 0 :=
  have r := fallback_resolves_into_secondary_member envNoPrimary tableAll
    (Call.setupInstance ⟨5, none⟩) "GetPhysicalDeviceMemoryProperties2"
    "GetPhysicalDeviceMemoryProperties2KHR" (by decide) (by decide) (by decide) (by decide)
  ⟨r.1, r.2.1, r.2.2.2⟩

/-- The lambda of lines 138-142 on any table: the create member is always
assigned, the destroy member only when the create name resolved. -/
theorem debugReport_exec (env : Env) (t1 : VulkanProcTable) (handle : VulkanHandle) :
    (execStmts env (.ofInstance handle) debugReportStmts t1).1.procs
        "CreateDebugReportCallbackEXT" =
      AcquireProc env t1 (some "vkCreateDebugReportCallbackEXT") (.ofInstance handle) ∧
    (execStmts env (.ofInstance handle) debugReportStmts t1).1.procs
        "DestroyDebugReportCallbackEXT" =
      (if AcquireProc env t1 (some "vkCreateDebugReportCallbackEXT") (.ofInstance handle) = 0
       then t1.procs "DestroyDebugReportCallbackEXT"
       else AcquireProc env t1 (some "vkDestroyDebugReportCallbackEXT")
         (.ofInstance handle)) := by
  have hres : (Context.ofInstance handle).resolver ≠ "CreateDebugReportCallbackEXT" := by
    show "GetInstanceProcAddr" ≠ "CreateDebugReportCallbackEXT"
    decide
  have hne : "DestroyDebugReportCallbackEXT" ≠ "CreateDebugReportCallbackEXT" := by decide
  have hc := AcquireProc_congr env t1
    (t1.setProc "CreateDebugReportCallbackEXT"
      (AcquireProc env t1 (some "vkCreateDebugReportCallbackEXT") (.ofInstance handle)))
    (some "vkDestroyDebugReportCallbackEXT") (.ofInstance handle)
    (setProc_procs_ne _ _ _ _ hres)
  have hunf : execStmts env (.ofInstance handle) debugReportStmts t1 =
      (if (AcquireProc env t1 (some "vkCreateDebugReportCallbackEXT")
            (.ofInstance handle) != 0) = true
       then
        (if (AcquireProc env
              (t1.setProc "CreateDebugReportCallbackEXT"
                (AcquireProc env t1 (some "vkCreateDebugReportCallbackEXT")
                  (.ofInstance handle)))
              (some "vkDestroyDebugReportCallbackEXT") (.ofInstance handle) != 0) = true
         then
          (((t1.setProc "CreateDebugReportCallbackEXT"
              (AcquireProc env t1 (some "vkCreateDebugReportCallbackEXT")
                (.ofInstance handle))).setProc "DestroyDebugReportCallbackEXT"
              (AcquireProc env
                (t1.setProc "CreateDebugReportCallbackEXT"
                  (AcquireProc env t1 (some "vkCreateDebugReportCallbackEXT")
                    (.ofInstance handle)))
                (some "vkDestroyDebugReportCallbackEXT") (.ofInstance handle))), true)
         else
          (((t1.setProc "CreateDebugReportCallbackEXT"
              (AcquireProc env t1 (some "vkCreateDebugReportCallbackEXT")
                (.ofInstance handle))).setProc "DestroyDebugReportCallbackEXT"
              (AcquireProc env
                (t1.setProc "CreateDebugReportCallbackEXT"
                  (AcquireProc env t1 (some "vkCreateDebugReportCallbackEXT")
                    (.ofInstance handle)))
                (some "vkDestroyDebugReportCallbackEXT") (.ofInstance handle))), false))
       else
        (t1.setProc "CreateDebugReportCallbackEXT"
          (AcquireProc env t1 (some "vkCreateDebugReportCallbackEXT")
            (.ofInstance handle)), false)) := rfl
  rw [hunf, hc]
  by_cases hz : AcquireProc env t1 (some "vkCreateDebugReportCallbackEXT")
      (.ofInstance handle) = 0
  · rw [hz]
    simp only [bne_self_eq_false, Bool.false_eq_true, if_false, if_true]
    exact ⟨setProc_procs_self _ _ _, setProc_procs_ne _ _ _ _ hne⟩
  · have hb : (AcquireProc env t1 (some "vkCreateDebugReportCallbackEXT")
        (.ofInstance handle) != 0) = true := by simpa using hz
    rw [hb]
    simp only [if_true, hz, if_false]
    constructor
    · split
      · rw [setProc_procs_ne _ _ _ _ (Ne.symm hne)]; exact setProc_procs_self _ _ _
      · rw [setProc_procs_ne _ _ _ _ (Ne.symm hne)]; exact setProc_procs_self _ _ _
    · split <;> exact setProc_procs_self _ _ _

/-- C8, as stated, fails on a table that was set up before: in one world where
the debug-report names resolve for the instance 3 and not for the instance 5,
after a successful setup for 3 every mandatory name resolves for 5 and the
destroy name does not, `SetupInstanceProcAddresses` for 5 returns true, and the
member `DestroyDebugReportCallbackEXT` still holds the pointer stored for 3. -/
theorem unresolved_destroy_debug_report_keeps_old_pointer :
    (SetupInstanceProcAddresses envDebugReportNotFor5
      (VulkanProcTable.fromProc envDebugReportNotFor5 1) ⟨3, none⟩).2 = true ∧
    (∀ s ∈ instanceStmts envDebugReportNotFor5.cfg,
      s.resolves envDebugReportNotFor5 tableSetUpFor3 (.ofInstance ⟨5, none⟩) = true) ∧
    AcquireProc envDebugReportNotFor5 tableSetUpFor3
      (some "vkDestroyDebugReportCallbackEXT") (.ofInstance ⟨5, none⟩) = 0 ∧
    (SetupInstanceProcAddresses envDebugReportNotFor5 tableSetUpFor3 ⟨5, none⟩).2 = true ∧
    (SetupInstanceProcAddresses envDebugReportNotFor5 tableSetUpFor3
      ⟨5, none⟩).1.instance_ = ⟨5, none⟩ ∧
    ¬ (SetupInstanceProcAddresses envDebugReportNotFor5 tableSetUpFor3
      ⟨5, none⟩).1.procs "DestroyDebugReportCallbackEXT" = 0 := by
  decide

/-- C8, amended. When every mandatory instance-level entry resolves,
`SetupInstanceProcAddresses` returns true and stores the given handle value,
with no destroyer, as the instance handle, whatever the two debug-report names
do. The member `CreateDebugReportCallbackEXT` holds what its name resolved to,
so null when unresolved. When the create name is unresolved the member
`DestroyDebugReportCallbackEXT` is not assigned and keeps the value it had
before the call; when the create name resolved it holds what the destroy name
resolved to, so null when unresolved. -/
theorem instance_setup_tolerates_missing_debug_report (env : Env) (t : VulkanProcTable)
    (handle : VulkanHandle)
    (hall : ∀ s ∈ instanceStmts env.cfg, s.resolves env t (.ofInstance handle) = true) :
    (SetupInstanceProcAddresses env t handle).2 = true ∧
    (SetupInstanceProcAddresses env t handle).1.instance_ = ⟨handle.handle_, none⟩ ∧
    (SetupInstanceProcAddresses env t handle).1.procs "CreateDebugReportCallbackEXT" =
      AcquireProc env t (some "vkCreateDebugReportCallbackEXT") (.ofInstance handle) ∧
    (SetupInstanceProcAddresses env t handle).1.procs "DestroyDebugReportCallbackEXT" =
      (if AcquireProc env t (some "vkCreateDebugReportCallbackEXT") (.ofInstance handle) = 0
       then t.procs "DestroyDebugReportCallbackEXT"
       else AcquireProc env t (some "vkDestroyDebugReportCallbackEXT")
         (.ofInstance handle)) ∧
    (AcquireProc env t (some "vkCreateDebugReportCallbackEXT") (.ofInstance handle) = 0 →
      (SetupInstanceProcAddresses env t handle).1.procs "CreateDebugReportCallbackEXT" = 0 ∧
      (SetupInstanceProcAddresses env t handle).1.procs "DestroyDebugReportCallbackEXT" =
        t.procs "DestroyDebugReportCallbackEXT") ∧
    (AcquireProc env t (some "vkCreateDebugReportCallbackEXT") (.ofInstance handle) ≠ 0 →
      AcquireProc env t (some "vkDestroyDebugReportCallbackEXT") (.ofInstance handle) = 0 →
      (SetupInstanceProcAddresses env t handle).1.procs "DestroyDebugReportCallbackEXT" = 0) := by
  have hok := run_success_of_resolves env t (Call.setupInstance handle) hall
  have hh := (run_handles env t (Call.setupInstance handle)).2 hok.1
  have hs := execStmts_success env (.ofInstance handle) (instanceStmts env.cfg) t
    (resolver_not_mem_stmts env.cfg (Call.setupInstance handle)) hall
  have hp := (run_of_success env t (Call.setupInstance handle) hs).2
  have hres := execStmts_procs_of_not_mem env (.ofInstance handle) (instanceStmts env.cfg) t
    _ (resolver_not_mem_stmts env.cfg (Call.setupInstance handle))
  have hmemo : "DestroyDebugReportCallbackEXT" ∈ targets debugReportStmts := by decide
  have hdes := execStmts_procs_of_not_mem env (.ofInstance handle) (instanceStmts env.cfg) t
    "DestroyDebugReportCallbackEXT"
    (fun hk => not_mem_optional_of_mem_stmts env.cfg (Call.setupInstance handle) _ hk hmemo)
  have hc : ∀ n, AcquireProc env (execStmts env (.ofInstance handle) (instanceStmts env.cfg) t).1
      n (.ofInstance handle) = AcquireProc env t n (.ofInstance handle) :=
    fun n => AcquireProc_congr env t _ n (.ofInstance handle) hres
  have hd := debugReport_exec env
    (execStmts env (.ofInstance handle) (instanceStmts env.cfg) t).1 handle
  rw [hc, hc, hdes] at hd
  have hp2 : (SetupInstanceProcAddresses env t handle).1.procs =
      (execStmts env (.ofInstance handle) debugReportStmts
        (execStmts env (.ofInstance handle) (instanceStmts env.cfg) t).1).1.procs := hp
  have hcreate : (SetupInstanceProcAddresses env t handle).1.procs
      "CreateDebugReportCallbackEXT" =
      AcquireProc env t (some "vkCreateDebugReportCallbackEXT") (.ofInstance handle) := by
    rw [hp2]; exact hd.1
  have hdestroy : (SetupInstanceProcAddresses env t handle).1.procs
      "DestroyDebugReportCallbackEXT" =
      (if AcquireProc env t (some "vkCreateDebugReportCallbackEXT") (.ofInstance handle) = 0
       then t.procs "DestroyDebugReportCallbackEXT"
       else AcquireProc env t (some "vkDestroyDebugReportCallbackEXT")
         (.ofInstance handle)) := by
    rw [hp2]; exact hd.2
  refine ⟨hok.1, hh.1, hcreate, hdestroy, ?_, ?_⟩
  · intro hz
    refine ⟨by rw [hcreate, hz], ?_⟩
    rw [hdestroy, if_pos hz]
  · intro hnz hz
    rw [hdestroy, if_neg hnz, hz]

/-- C8, amended, on a new table when neither debug-report name resolves. -/
theorem instance_setup_tolerates_missing_debug_report_witness :
    (∀ s ∈ instanceStmts envNoDebugReport.cfg,
      s.resolves envNoDebugReport tableAll (.ofInstance ⟨5, none⟩) = true) ∧
    (SetupInstanceProcAddresses envNoDebugReport tableAll ⟨5, none⟩).2 = true ∧
    (SetupInstanceProcAddresses envNoDebugReport tableAll ⟨5, none⟩).1.instance_ =
      ⟨5, none⟩ ∧
    (SetupInstanceProcAddresses envNoDebugReport tableAll ⟨5, none⟩).1.procs
      "CreateDebugReportCallbackEXT" = 0 ∧
    (SetupInstanceProcAddresses envNoDebugReport tableAll ⟨5, none⟩).1.procs
      "DestroyDebugReportCallbackEXT" = tableAll.procs "DestroyDebugReportCallbackEXT" :=
  have h : ∀ s ∈ instanceStmts envNoDebugReport.cfg,
      s.resolves envNoDebugReport tableAll (.ofInstance ⟨5, none⟩) = true := by decide
  have r := instance_setup_tolerates_missing_debug_report envNoDebugReport tableAll
    ⟨5, none⟩ h
  ⟨h, r.1, r.2.1, (r.2.2.2.2.1 (by decide)).1, (r.2.2.2.2.1 (by decide)).2⟩

/-! ### Construction -/

theorem setProc_fields (t : VulkanProcTable) (name : String) (p : Nat) :
    (t.setProc name p).instance_ = t.instance_ ∧ (t.setProc name p).device_ = t.device_ ∧
    (t.setProc name p).handle_ = t.handle_ := by
  simp [VulkanProcTable.setProc]

theorem loader_fails_without_bootstrap (env : Env) (t : VulkanProcTable)
    (h : t.procs "GetInstanceProcAddr" = 0) : (SetupLoaderProcAddresses env t).2 = false := by
  simp [SetupLoaderProcAddresses, loaderStmts, execStmts, Stmt.exec, ACQUIRE_PROC,
    AcquireProc, h]

theorem OpenLibraryHandle_fields (env : Env) (t : VulkanProcTable) (path : String) :
    (OpenLibraryHandle env t path).1.instance_ = t.instance_ ∧
    (OpenLibraryHandle env t path).1.device_ = t.device_ := by
  simp only [OpenLibraryHandle]
  split_ifs <;> exact ⟨rfl, rfl⟩

theorem SetupGetInstanceProcAddress_fields (env : Env) (t : VulkanProcTable) :
    (SetupGetInstanceProcAddress env t).1.instance_ = t.instance_ ∧
    (SetupGetInstanceProcAddress env t).1.device_ = t.device_ := by
  simp only [SetupGetInstanceProcAddress]
  split_ifs <;> exact ⟨rfl, rfl⟩

theorem fromPath_handles (env : Env) (so_path : String) :
    (VulkanProcTable.fromPath env so_path).instance_ = ⟨0, none⟩ ∧
    (VulkanProcTable.fromPath env so_path).device_ = ⟨0, none⟩ := by
  have ho := OpenLibraryHandle_fields env VulkanProcTable.initial so_path
  have hg := SetupGetInstanceProcAddress_fields env
    (OpenLibraryHandle env VulkanProcTable.initial so_path).1
  have hl := execStmts_fields env (.ofInstance ⟨0, none⟩) loaderStmts
    (SetupGetInstanceProcAddress env
      (OpenLibraryHandle env VulkanProcTable.initial so_path).1).1
  have hi : VulkanProcTable.initial.instance_ = ⟨0, none⟩ := rfl
  have hd : VulkanProcTable.initial.device_ = ⟨0, none⟩ := rfl
  simp only [VulkanProcTable.fromPath, SetupLoaderProcAddresses]
  split
  · exact ⟨ho.1.trans hi, ho.2.trans hd⟩
  · split
    · exact ⟨hg.1.trans (ho.1.trans hi), hg.2.trans (ho.2.trans hd)⟩
    · exact ⟨hl.1.trans (hg.1.trans (ho.1.trans hi)),
        hl.2.1.trans (hg.2.trans (ho.2.trans hd))⟩

theorem fromProc_handles (env : Env) (p : Nat) :
    (VulkanProcTable.fromProc env p).instance_ = ⟨0, none⟩ ∧
    (VulkanProcTable.fromProc env p).device_ = ⟨0, none⟩ := by
  have hl := execStmts_fields env (.ofInstance ⟨0, none⟩) loaderStmts
    (VulkanProcTable.initial.setProc "GetInstanceProcAddr" p)
  exact ⟨hl.1, hl.2.1⟩

/-- A newly constructed table has neither handle set. -/
theorem build_handles (env : Env) (m : Construction) :
    (m.build env).instance_ = ⟨0, none⟩ ∧ (m.build env).device_ = ⟨0, none⟩ := by
  cases m with
  | byDefault => exact fromPath_handles env "libvulkan.so"
  | byPath so_path => exact fromPath_handles env so_path
  | byProc p => exact fromProc_handles env p

theorem Outcome.value_eq {α : Type} {o : Outcome α} {a : α} (ho : o = .returned a)
    (h : o.returns = true) : o.value h = a := by
  subst ho
  rfl

theorem OpenLibraryHandle_eq (env : Env) (t : VulkanProcTable) (path : String) :
    (OpenLibraryHandle env t path).1 = { t with handle_ := openedLibrary env path } ∧
    (OpenLibraryHandle env t path).2 = (openedLibrary env path != 0) := by
  simp only [OpenLibraryHandle, openedLibrary]
  split_ifs <;> simp_all

theorem fromPath_not_acquired (env : Env) (so_path : String)
    (h : openedLibrary env so_path = 0 ∨
      (env.cfg.VULKAN_LINK_STATICALLY = false ∧
        env.ResolveSymbol (openedLibrary env so_path) "vkGetInstanceProcAddr" = 0)) :
    (VulkanProcTable.fromPath env so_path).acquired_mandatory_proc_addresses_ = false := by
  have ho := OpenLibraryHandle_eq env VulkanProcTable.initial so_path
  by_cases h0 : openedLibrary env so_path = 0
  · have h1 : (OpenLibraryHandle env VulkanProcTable.initial so_path).2 = false := by
      rw [ho.2, h0]; rfl
    simp [VulkanProcTable.fromPath, h1]
  · rcases h with h | ⟨hst, hsym⟩
    · exact absurd h h0
    · have h1 : (OpenLibraryHandle env VulkanProcTable.initial so_path).2 = true := by
        rw [ho.2]; simpa using h0
      have h2 : (SetupGetInstanceProcAddress env
          (OpenLibraryHandle env VulkanProcTable.initial so_path).1).2 = false := by
        rw [ho.1]
        have hnat : NativeGetInstanceProcAddr env
            { VulkanProcTable.initial with handle_ := openedLibrary env so_path } =
            .returned 0 := by
          simp [NativeGetInstanceProcAddr, VulkanProcTable.initial, hst, h0, hsym]
        simp [SetupGetInstanceProcAddress, h0, Outcome.value_eq hnat,
          VulkanProcTable.setProc]
      simp [VulkanProcTable.fromPath, h1, h2]

/-- C7. In each of the three construction modes, when the bootstrap entry point
cannot be obtained (the library does not open, the symbol does not resolve, or
the injected function is null), `HasAcquiredMandatoryProcAddresses` and
`IsValid` are false on the constructed table. -/
theorem construction_without_bootstrap (env : Env) (m : Construction)
    (h : m.bootstrapMissing env) :
    HasAcquiredMandatoryProcAddresses (m.build env) = false ∧
    IsValid (m.build env) = false := by
  refine ⟨?_, by simp [IsValid, (build_handles env m).1, VulkanHandle.toBool]⟩
  cases m with
  | byDefault => exact fromPath_not_acquired env "libvulkan.so" h
  | byPath so_path => exact fromPath_not_acquired env so_path h
  | byProc p =>
    have hp : p = 0 := h
    subst hp
    exact loader_fails_without_bootstrap env _ (setProc_procs_self _ _ _)

/-- C7, for a library path that does not open. -/
theorem construction_without_bootstrap_witness :
    (Construction.byPath "missing.so").bootstrapMissing envAll ∧
    HasAcquiredMandatoryProcAddresses ((Construction.byPath "missing.so").build envAll) = false ∧
    IsValid ((Construction.byPath "missing.so").build envAll) = false :=
  have h : (Construction.byPath "missing.so").bootstrapMissing envAll := Or.inl rfl
  ⟨h, construction_without_bootstrap envAll (Construction.byPath "missing.so") h⟩

/-! ### Stored handles and the presence queries -/

/-- A tier-setup call that returns true had every mandatory entry resolve. -/
theorem resolves_of_run_true (env : Env) (t : VulkanProcTable) (c : Call)
    (h : (c.run env t).2 = true) :
    ∀ s ∈ c.stmts env.cfg, s.resolves env t c.context = true := by
  intro s hs
  by_contra hf
  have hfail : ∃ s ∈ c.stmts env.cfg, s.resolves env t c.context = false :=
    ⟨s, hs, by simpa using hf⟩
  obtain ⟨pre, s1, post, hl, hpre, hs1⟩ := exists_first_failure env c.context t _ hfail
  have hr := resolver_not_mem_stmts env.cfg c
  rw [hl] at hr
  have hex := execStmts_append_failure env c.context t pre s1 post hr hpre hs1
  rw [← hl] at hex
  have hrun := run_of_failure env t c (by rw [hex])
  rw [hrun] at h
  simp at h

/-- A successful device setup was given a non-null device handle. -/
theorem device_handle_of_success (env : Env) (t : VulkanProcTable) (device : VulkanHandle)
    (h : (SetupDeviceProcAddresses env t device).2 = true) : device.toBool = true := by
  have hall := resolves_of_run_true env t (Call.setupDevice device) h
  have hmem : Stmt.proc "AllocateCommandBuffers" ∈
      (Call.setupDevice device).stmts env.cfg := by
    simp [Call.stmts, deviceStmts]
  have h1 := hall _ hmem
  by_contra hb
  have hb2 : device.toBool = false := by simpa using hb
  simp [Stmt.resolves, Call.context, AcquireProc, hb2] at h1

/-- Calls among which no device setup returned true leave the device handle unset. -/
theorem runCalls_device_unset (env : Env) (calls : List Call) (t : VulkanProcTable)
    (hdev : AreDeviceProcsSetup t = false)
    (hno : noDeviceSuccess (runCalls env calls t).2) :
    AreDeviceProcsSetup (runCalls env calls t).1 = false := by
  induction calls generalizing t with
  | nil => simpa [runCalls] using hdev
  | cons c cs ih =>
    simp only [runCalls]
    apply ih
    · have hh := run_handles env t c
      cases hres : (c.run env t).2 with
      | false =>
        have := (hh.1 hres).2
        simp only [AreDeviceProcsSetup] at hdev ⊢
        rw [this]; exact hdev
      | true =>
        cases c with
        | setupInstance h =>
          have := (hh.2 hres).2
          simp only [AreDeviceProcsSetup] at hdev ⊢
          rw [this]; exact hdev
        | setupDevice h =>
          exfalso
          apply hno h
          simp [runCalls, hres]
    · intro h hmem
      apply hno h
      simp only [runCalls]
      exact List.mem_cons_of_mem _ hmem

/-- Calls among which every successful instance setup had a non-null handle
keep the instance handle set. -/
theorem runCalls_instance_set (env : Env) (calls : List Call) (t : VulkanProcTable)
    (hinst : AreInstanceProcsSetup t = true)
    (hmid : ∀ h, (Call.setupInstance h, true) ∈ (runCalls env calls t).2 → h.handle_ ≠ 0) :
    AreInstanceProcsSetup (runCalls env calls t).1 = true := by
  induction calls generalizing t with
  | nil => simpa [runCalls] using hinst
  | cons c cs ih =>
    simp only [runCalls]
    apply ih
    · have hh := run_handles env t c
      cases hres : (c.run env t).2 with
      | false =>
        have := (hh.1 hres).1
        simp only [AreInstanceProcsSetup] at hinst ⊢
        rw [this]; exact hinst
      | true =>
        cases c with
        | setupInstance h =>
          have h1 := (hh.2 hres).1
          have h2 : h.handle_ ≠ 0 := hmid h (by simp [runCalls, hres])
          simp only [AreInstanceProcsSetup, VulkanHandle.toBool]
          rw [h1]
          simpa using h2
        | setupDevice h =>
          have := (hh.2 hres).2
          simp only [AreInstanceProcsSetup] at hinst ⊢
          rw [this]; exact hinst
    · intro h hmem
      apply hmid h
      simp only [runCalls]
      exact List.mem_cons_of_mem _ hmem

/-- C5, as stated, fails: after a successful instance setup with the handle 3, a
second successful one with the handle 5 leaves 5 stored, and likewise for the
device handle (4, then 6). -/
theorem second_setup_replaces_stored_handle :
    (SetupInstanceProcAddresses envAll tableAll ⟨3, none⟩).2 = true ∧
    (SetupInstanceProcAddresses envAll tableAll ⟨3, none⟩).1.instance_.handle_ = 3 ∧
    (SetupInstanceProcAddresses envAll tableReady ⟨5, none⟩).2 = true ∧
    (SetupInstanceProcAddresses envAll tableReady ⟨5, none⟩).1.instance_.handle_ ≠ 3 ∧
    (SetupDeviceProcAddresses envAll tableReady ⟨4, none⟩).2 = true ∧
    (SetupDeviceProcAddresses envAll tableReady ⟨4, none⟩).1.device_.handle_ = 4 ∧
    (SetupDeviceProcAddresses envAll
      (SetupDeviceProcAddresses envAll tableReady ⟨4, none⟩).1 ⟨6, none⟩).2 = true ∧
    (SetupDeviceProcAddresses envAll
      (SetupDeviceProcAddresses envAll tableReady ⟨4, none⟩).1
        ⟨6, none⟩).1.device_.handle_ ≠ 4 := by
  decide

/-- C5, amended. A setup call never touches the handle of the other tier; it
leaves the handle of its own tier unchanged when it returns false and replaces
it by the handle passed in, with no destroyer, when it returns true. So after
two successful calls the stored handle is the one of the second call. -/
theorem setup_stores_handle_passed_in (env : Env) (t : VulkanProcTable)
    (handle : VulkanHandle) :
    (SetupInstanceProcAddresses env t handle).1.device_ = t.device_ ∧
    (SetupInstanceProcAddresses env t handle).1.instance_ =
      (if (SetupInstanceProcAddresses env t handle).2 = true
       then ⟨handle.handle_, none⟩ else t.instance_) ∧
    (SetupDeviceProcAddresses env t handle).1.instance_ = t.instance_ ∧
    (SetupDeviceProcAddresses env t handle).1.device_ =
      (if (SetupDeviceProcAddresses env t handle).2 = true
       then ⟨handle.handle_, none⟩ else t.device_) := by
  have hi := run_handles env t (Call.setupInstance handle)
  have hd := run_handles env t (Call.setupDevice handle)
  simp only [Call.run] at hi hd
  cases h1 : (SetupInstanceProcAddresses env t handle).2 <;>
    cases h2 : (SetupDeviceProcAddresses env t handle).2 <;>
    simp_all

/-- C3, as stated, fails for the null handle: when the bootstrap resolver
resolves every name for it, `SetupInstanceProcAddresses` returns true and
`AreInstanceProcsSetup` is false afterwards. -/
theorem null_instance_is_not_set_up :
    (SetupInstanceProcAddresses envAll tableAll ⟨0, none⟩).2 = true ∧
    ¬ AreInstanceProcsSetup (SetupInstanceProcAddresses envAll tableAll ⟨0, none⟩).1 = true := by
  decide

/-- C3, amended. On a table whose device procs are not set up (as on every
newly constructed one), if `SetupInstanceProcAddresses` returns true then
`AreInstanceProcsSetup` is true exactly when the handle passed in is non-null,
and `IsValid` is false after the call and after any further calls among which
no `SetupDeviceProcAddresses` returned true. -/
theorem instance_setup_sets_instance_only (env : Env) (t : VulkanProcTable)
    (handle : VulkanHandle) (later : List Call)
    (hdev : AreDeviceProcsSetup t = false)
    (hok : (SetupInstanceProcAddresses env t handle).2 = true)
    (hno : noDeviceSuccess (runCalls env later (SetupInstanceProcAddresses env t handle).1).2) :
    AreInstanceProcsSetup (SetupInstanceProcAddresses env t handle).1 = handle.toBool ∧
    (handle.handle_ ≠ 0 →
      AreInstanceProcsSetup (SetupInstanceProcAddresses env t handle).1 = true) ∧
    IsValid (SetupInstanceProcAddresses env t handle).1 = false ∧
    IsValid (runCalls env later (SetupInstanceProcAddresses env t handle).1).1 = false := by
  have hh := (run_handles env t (Call.setupInstance handle)).2 hok
  simp only [Call.run] at hh
  have hd1 : AreDeviceProcsSetup (SetupInstanceProcAddresses env t handle).1 = false := by
    simp only [AreDeviceProcsSetup] at hdev ⊢
    rw [hh.2]; exact hdev
  have hd2 := runCalls_device_unset env later _ hd1 hno
  have ha : AreInstanceProcsSetup (SetupInstanceProcAddresses env t handle).1 =
      handle.toBool := by
    simp only [AreInstanceProcsSetup, hh.1, VulkanHandle.toBool]
  simp only [AreDeviceProcsSetup] at hd1 hd2
  refine ⟨ha, ?_, by simp [IsValid, hd1], by simp [IsValid, hd2]⟩
  intro hne
  rw [ha]
  simpa [VulkanHandle.toBool] using hne

/-- C3, amended, on a new table, with a failed device setup after the instance setup. -/
theorem instance_setup_sets_instance_only_witness :
    AreDeviceProcsSetup tableAll = false ∧
    (SetupInstanceProcAddresses envAll tableAll ⟨3, none⟩).2 = true ∧
    AreInstanceProcsSetup (SetupInstanceProcAddresses envAll tableAll ⟨3, none⟩).1 = true ∧
    IsValid (runCalls envAll [Call.setupDevice ⟨0, none⟩]
      (SetupInstanceProcAddresses envAll tableAll ⟨3, none⟩).1).1 = false :=
  have hdev : AreDeviceProcsSetup tableAll = false := by decide
  have hok : (SetupInstanceProcAddresses envAll tableAll ⟨3, none⟩).2 = true := by decide
  have hno : noDeviceSuccess (runCalls envAll [Call.setupDevice ⟨0, none⟩]
      (SetupInstanceProcAddresses envAll tableAll ⟨3, none⟩).1).2 := by
    intro h hmem
    have hlog : (runCalls envAll [Call.setupDevice ⟨0, none⟩]
        (SetupInstanceProcAddresses envAll tableAll ⟨3, none⟩).1).2 =
        [(Call.setupDevice ⟨0, none⟩, false)] := by decide
    rw [hlog] at hmem
    simp at hmem
  have r := instance_setup_sets_instance_only envAll tableAll ⟨3, none⟩
    [Call.setupDevice ⟨0, none⟩] hdev hok hno
  ⟨hdev, hok, r.2.1 (by decide), r.2.2.2⟩

/-- C4, as stated, fails for the null instance handle: both setup calls return
true and `IsValid` is false afterwards. -/
theorem null_instance_then_device_is_not_valid :
    (SetupInstanceProcAddresses envAll tableAll ⟨0, none⟩).2 = true ∧
    (SetupDeviceProcAddresses envAll
      (SetupInstanceProcAddresses envAll tableAll ⟨0, none⟩).1 ⟨4, none⟩).2 = true ∧
    ¬ IsValid (SetupDeviceProcAddresses envAll
      (SetupInstanceProcAddresses envAll tableAll ⟨0, none⟩).1 ⟨4, none⟩).1 = true := by
  decide

/-- C4, amended. If `SetupInstanceProcAddresses` returns true for a non-null
instance handle and, after any calls in between among which every successful
instance setup had a non-null handle, `SetupDeviceProcAddresses` returns true,
then `IsValid` and `AreDeviceProcsSetup` are true. -/
theorem instance_then_device_is_valid (env : Env) (t : VulkanProcTable)
    (inst device : VulkanHandle) (between : List Call)
    (hne : inst.handle_ ≠ 0)
    (h1 : (SetupInstanceProcAddresses env t inst).2 = true)
    (hmid : ∀ h, (Call.setupInstance h, true) ∈
      (runCalls env between (SetupInstanceProcAddresses env t inst).1).2 → h.handle_ ≠ 0)
    (h2 : (SetupDeviceProcAddresses env
      (runCalls env between (SetupInstanceProcAddresses env t inst).1).1 device).2 = true) :
    IsValid (SetupDeviceProcAddresses env
      (runCalls env between (SetupInstanceProcAddresses env t inst).1).1 device).1 = true ∧
    AreDeviceProcsSetup (SetupDeviceProcAddresses env
      (runCalls env between (SetupInstanceProcAddresses env t inst).1).1 device).1 = true := by
  have hh := (run_handles env t (Call.setupInstance inst)).2 h1
  simp only [Call.run] at hh
  have hi1 : AreInstanceProcsSetup (SetupInstanceProcAddresses env t inst).1 = true := by
    simp only [AreInstanceProcsSetup, hh.1, VulkanHandle.toBool]
    simpa using hne
  have hi2 := runCalls_instance_set env between _ hi1 hmid
  have hd := (run_handles env _ (Call.setupDevice device)).2 h2
  simp only [Call.run] at hd
  have hdv := device_handle_of_success env _ device h2
  simp only [AreInstanceProcsSetup] at hi2
  have hdt : (SetupDeviceProcAddresses env
      (runCalls env between (SetupInstanceProcAddresses env t inst).1).1
      device).1.device_.toBool = true := by
    rw [hd.1]; exact hdv
  simp only [IsValid, AreDeviceProcsSetup, hd.2, hi2, hdt]
  simp

/-- C4, amended, with instance 3, then device 4. -/
theorem instance_then_device_is_valid_witness :
    (SetupInstanceProcAddresses envAll tableAll ⟨3, none⟩).2 = true ∧
    (SetupDeviceProcAddresses envAll
      (runCalls envAll [] (SetupInstanceProcAddresses envAll tableAll ⟨3, none⟩).1).1
      ⟨4, none⟩).2 = true ∧
    IsValid (SetupDeviceProcAddresses envAll
      (runCalls envAll [] (SetupInstanceProcAddresses envAll tableAll ⟨3, none⟩).1).1
      ⟨4, none⟩).1 = true :=
  have h1 : (SetupInstanceProcAddresses envAll tableAll ⟨3, none⟩).2 = true := by decide
  have h2 : (SetupDeviceProcAddresses envAll
      (runCalls envAll [] (SetupInstanceProcAddresses envAll tableAll ⟨3, none⟩).1).1
      ⟨4, none⟩).2 = true := by decide
  ⟨h1, h2, (instance_then_device_is_valid envAll tableAll ⟨3, none⟩ ⟨4, none⟩ []
    (by decide) h1 (by intro h hmem; simp [runCalls] at hmem) h2).1⟩

/-! ### The thread-safe queue shim -/

/-- C2: the guard of the two acquire operations tests `GetInstanceProcAddr`, not
`GetDeviceProcAddr`. On a table built from an injected bootstrap function, before
instance setup, `GetDeviceProcAddr` is unset and `GetInstanceProcAddr` is set;
for a non-null device both operations call through the null `GetDeviceProcAddr`
instead of returning a null pointer, whereas `AcquireProc` for the same device
returns null. -/
theorem acquire_threadsafe_calls_unset_resolver :
    tableAll.procs "GetDeviceProcAddr" = 0 ∧
    tableAll.procs "GetInstanceProcAddr" ≠ 0 ∧
    AcquireThreadsafeSubmitQueue envAll tableAll ⟨4, none⟩ globalsEmpty = .nullCall ∧
    AcquireThreadsafeQueueWaitIdle envAll tableAll ⟨4, none⟩ globalsEmpty = .nullCall ∧
    AcquireThreadsafeSubmitQueue envAll tableAll ⟨4, none⟩ globalsEmpty ≠
      .returned (0, globalsEmpty) ∧
    AcquireProc envAll tableAll (some "vkQueueSubmit") (.ofDevice ⟨4, none⟩) = 0 := by
  decide

/-- C9. Once `AcquireThreadsafeSubmitQueue` has returned a non-null pointer `w`
for a device whose resolver gives a non-null `f` for `"vkQueueSubmit"`, `w` is
the address of the shim, and the shim called with `(queue, submitCount,
pSubmits, fence)` calls `f` once, with these arguments, between taking and
releasing the mutex, and returns the result of `f`; acquiring again passes the
consistency check in every build and leaves the stored pointer as it is. The
same holds for `AcquireThreadsafeQueueWaitIdle`, `"vkQueueWaitIdle"` and
`(queue)`. -/
theorem threadsafe_wrapper_forwards (env : Env) (t : VulkanProcTable)
    (device : VulkanHandle) :
    (∀ (g0 g1 : Globals) (w queue submitCount pSubmits fence : Nat),
      AcquireThreadsafeSubmitQueue env t device g0 = .returned (w, g1) → w ≠ 0 →
      env.callGetDeviceProcAddr (t.procs "GetDeviceProcAddr") device.handle_
        "vkQueueSubmit" ≠ 0 →
      w = env.addr_vkQueueSubmitThreadsafe.val ∧
      g1.g_non_threadsafe_vkQueueSubmit =
        env.callGetDeviceProcAddr (t.procs "GetDeviceProcAddr") device.handle_
          "vkQueueSubmit" ∧
      vkQueueSubmitThreadsafe env g1 queue submitCount pSubmits fence =
        .returned
          (env.callQueueSubmit
            (env.callGetDeviceProcAddr (t.procs "GetDeviceProcAddr") device.handle_
              "vkQueueSubmit") queue submitCount pSubmits fence,
           [.lock,
            .queueSubmit
              (env.callGetDeviceProcAddr (t.procs "GetDeviceProcAddr") device.handle_
                "vkQueueSubmit") queue submitCount pSubmits fence,
            .unlock]) ∧
      AcquireThreadsafeSubmitQueue env t device g1 = .returned (w, g1)) ∧
    (∀ (g0 g1 : Globals) (w queue : Nat),
      AcquireThreadsafeQueueWaitIdle env t device g0 = .returned (w, g1) → w ≠ 0 →
      env.callGetDeviceProcAddr (t.procs "GetDeviceProcAddr") device.handle_
        "vkQueueWaitIdle" ≠ 0 →
      w = env.addr_vkQueueWaitIdleThreadsafe.val ∧
      g1.g_non_threadsafe_vkQueueWaitIdle =
        env.callGetDeviceProcAddr (t.procs "GetDeviceProcAddr") device.handle_
          "vkQueueWaitIdle" ∧
      vkQueueWaitIdleThreadsafe env g1 queue =
        .returned
          (env.callQueueWaitIdle
            (env.callGetDeviceProcAddr (t.procs "GetDeviceProcAddr") device.handle_
              "vkQueueWaitIdle") queue,
           [.lock,
            .queueWaitIdle
              (env.callGetDeviceProcAddr (t.procs "GetDeviceProcAddr") device.handle_
                "vkQueueWaitIdle") queue,
            .unlock]) ∧
      AcquireThreadsafeQueueWaitIdle env t device g1 = .returned (w, g1)) := by
  constructor
  · intro g0 g1 w queue submitCount pSubmits fence hacq hw hf
    by_cases hg : device.toBool = false ∨ t.procs "GetInstanceProcAddr" = 0
    · simp only [AcquireThreadsafeSubmitQueue, hg, if_true, Outcome.returned.injEq,
        Prod.mk.injEq] at hacq
      exact absurd hacq.1.symm hw
    · by_cases hd : t.procs "GetDeviceProcAddr" = 0
      · simp [AcquireThreadsafeSubmitQueue, hg, hd] at hacq
      · by_cases hc : FML_DCHECK env.cfg
            (g0.g_non_threadsafe_vkQueueSubmit == 0 ||
              g0.g_non_threadsafe_vkQueueSubmit ==
                env.callGetDeviceProcAddr (t.procs "GetDeviceProcAddr") device.handle_
                  "vkQueueSubmit") = false
        · simp [AcquireThreadsafeSubmitQueue, hg, hd, hc] at hacq
        · simp only [AcquireThreadsafeSubmitQueue, hg, hd, hc, if_false,
            Outcome.returned.injEq, Prod.mk.injEq] at hacq
          obtain ⟨rfl, rfl⟩ := hacq
          simp [AcquireThreadsafeSubmitQueue, vkQueueSubmitThreadsafe, hf, hg, hd,
            FML_DCHECK]
  · intro g0 g1 w queue hacq hw hf
    by_cases hg : device.toBool = false ∨ t.procs "GetInstanceProcAddr" = 0
    · simp only [AcquireThreadsafeQueueWaitIdle, hg, if_true, Outcome.returned.injEq,
        Prod.mk.injEq] at hacq
      exact absurd hacq.1.symm hw
    · by_cases hd : t.procs "GetDeviceProcAddr" = 0
      · simp [AcquireThreadsafeQueueWaitIdle, hg, hd] at hacq
      · by_cases hc : FML_DCHECK env.cfg
            (g0.g_non_threadsafe_vkQueueWaitIdle == 0 ||
              g0.g_non_threadsafe_vkQueueWaitIdle ==
                env.callGetDeviceProcAddr (t.procs "GetDeviceProcAddr") device.handle_
                  "vkQueueWaitIdle") = false
        · simp [AcquireThreadsafeQueueWaitIdle, hg, hd, hc] at hacq
        · simp only [AcquireThreadsafeQueueWaitIdle, hg, hd, hc, if_false,
            Outcome.returned.injEq, Prod.mk.injEq] at hacq
          obtain ⟨rfl, rfl⟩ := hacq
          simp [AcquireThreadsafeQueueWaitIdle, vkQueueWaitIdleThreadsafe, hf, hg, hd,
            FML_DCHECK]

/-- C9, on the table set up for instance 3, for the device 4. -/
theorem threadsafe_wrapper_forwards_witness :
    AcquireThreadsafeSubmitQueue envAll tableReady ⟨4, none⟩ globalsEmpty =
      .returned (100, ⟨7, 0⟩) ∧
    vkQueueSubmitThreadsafe envAll ⟨7, 0⟩ 11 2 13 14 =
      .returned (envAll.callQueueSubmit 7 11 2 13 14,
        [.lock, .queueSubmit 7 11 2 13 14, .unlock]) ∧
    AcquireThreadsafeSubmitQueue envAll tableReady ⟨4, none⟩ ⟨7, 0⟩ =
      .returned (100, ⟨7, 0⟩) ∧
    AcquireThreadsafeQueueWaitIdle envAll tableReady ⟨4, none⟩ globalsEmpty =
      .returned (101, ⟨0, 7⟩) ∧
    vkQueueWaitIdleThreadsafe envAll ⟨0, 7⟩ 11 =
      .returned (envAll.callQueueWaitIdle 7 11, [.lock, .queueWaitIdle 7 11, .unlock]) ∧
    AcquireThreadsafeQueueWaitIdle envAll tableReady ⟨4, none⟩ ⟨0, 7⟩ =
      .returned (101, ⟨0, 7⟩) :=
  have h1 : AcquireThreadsafeSubmitQueue envAll tableReady ⟨4, none⟩ globalsEmpty =
      .returned (100, ⟨7, 0⟩) := by decide
  have h2 : AcquireThreadsafeQueueWaitIdle envAll tableReady ⟨4, none⟩ globalsEmpty =
      .returned (101, ⟨0, 7⟩) := by decide
  have r1 := (threadsafe_wrapper_forwards envAll tableReady ⟨4, none⟩).1
    globalsEmpty ⟨7, 0⟩ 100 11 2 13 14 h1 (by decide) (by decide)
  have r2 := (threadsafe_wrapper_forwards envAll tableReady ⟨4, none⟩).2
    globalsEmpty ⟨0, 7⟩ 101 11 h2 (by decide) (by decide)
  ⟨h1, r1.2.2.1, r1.2.2.2, h2, r2.2.2.1, r2.2.2.2⟩

/-- C10, as stated, fails in a debug build: with both resolvers set, a non-null
device and a slot that holds 7 from an earlier acquisition, a resolver that now
returns null for the queue operation makes `FML_DCHECK` abort; the operation
does not return the wrapper address. -/
theorem acquire_threadsafe_aborts_on_mismatch :
    tableReady.procs "GetInstanceProcAddr" ≠ 0 ∧
    tableReady.procs "GetDeviceProcAddr" ≠ 0 ∧
    envNoQueue.callGetDeviceProcAddr (tableReady.procs "GetDeviceProcAddr") 4
      "vkQueueSubmit" = 0 ∧
    AcquireThreadsafeSubmitQueue envNoQueue tableReady ⟨4, none⟩ globalsSeven =
      .dcheckFailed ∧
    AcquireThreadsafeQueueWaitIdle envNoQueue tableReady ⟨4, none⟩ globalsSeven =
      .dcheckFailed := by
  decide

/-- C10, amended. For a non-null device on a table whose `GetInstanceProcAddr`
and `GetDeviceProcAddr` are both set: when the build has no debug assertions, or
the slot is null or already equal to the newly resolved pointer,
`AcquireThreadsafeSubmitQueue` returns the non-null shim address and overwrites
the slot with what the device-level resolver returned for `"vkQueueSubmit"`,
null included; in a debug build with a slot holding another non-null pointer
the `FML_DCHECK` aborts. The same holds for `AcquireThreadsafeQueueWaitIdle`. -/
theorem acquire_threadsafe_overwrites_slot (env : Env) (t : VulkanProcTable)
    (device : VulkanHandle) (g : Globals)
    (hdev : device.handle_ ≠ 0)
    (hi : t.procs "GetInstanceProcAddr" ≠ 0)
    (hd : t.procs "GetDeviceProcAddr" ≠ 0) :
    ((env.cfg.NDEBUG_unset = false ∨ g.g_non_threadsafe_vkQueueSubmit = 0 ∨
        g.g_non_threadsafe_vkQueueSubmit =
          env.callGetDeviceProcAddr (t.procs "GetDeviceProcAddr") device.handle_
            "vkQueueSubmit") →
      AcquireThreadsafeSubmitQueue env t device g =
        .returned (env.addr_vkQueueSubmitThreadsafe.val,
          ⟨env.callGetDeviceProcAddr (t.procs "GetDeviceProcAddr") device.handle_
              "vkQueueSubmit",
           g.g_non_threadsafe_vkQueueWaitIdle⟩)) ∧
    (env.cfg.NDEBUG_unset = true → g.g_non_threadsafe_vkQueueSubmit ≠ 0 →
      g.g_non_threadsafe_vkQueueSubmit ≠
        env.callGetDeviceProcAddr (t.procs "GetDeviceProcAddr") device.handle_
          "vkQueueSubmit" →
      AcquireThreadsafeSubmitQueue env t device g = .dcheckFailed) ∧
    env.addr_vkQueueSubmitThreadsafe.val ≠ 0 ∧
    ((env.cfg.NDEBUG_unset = false ∨ g.g_non_threadsafe_vkQueueWaitIdle = 0 ∨
        g.g_non_threadsafe_vkQueueWaitIdle =
          env.callGetDeviceProcAddr (t.procs "GetDeviceProcAddr") device.handle_
            "vkQueueWaitIdle") →
      AcquireThreadsafeQueueWaitIdle env t device g =
        .returned (env.addr_vkQueueWaitIdleThreadsafe.val,
          ⟨g.g_non_threadsafe_vkQueueSubmit,
           env.callGetDeviceProcAddr (t.procs "GetDeviceProcAddr") device.handle_
             "vkQueueWaitIdle"⟩)) ∧
    (env.cfg.NDEBUG_unset = true → g.g_non_threadsafe_vkQueueWaitIdle ≠ 0 →
      g.g_non_threadsafe_vkQueueWaitIdle ≠
        env.callGetDeviceProcAddr (t.procs "GetDeviceProcAddr") device.handle_
          "vkQueueWaitIdle" →
      AcquireThreadsafeQueueWaitIdle env t device g = .dcheckFailed) ∧
    env.addr_vkQueueWaitIdleThreadsafe.val ≠ 0 := by
  have hv : device.toBool = true := by simpa [VulkanHandle.toBool] using hdev
  refine ⟨?_, ?_, env.addr_vkQueueSubmitThreadsafe.property, ?_, ?_,
    env.addr_vkQueueWaitIdleThreadsafe.property⟩
  · intro hc
    rcases hc with hc | hc | hc <;>
      simp [AcquireThreadsafeSubmitQueue, hv, hi, hd, FML_DCHECK, hc]
  · intro h1 h2 h3
    simp [AcquireThreadsafeSubmitQueue, hv, hi, hd, FML_DCHECK, h1, h2, h3]
  · intro hc
    rcases hc with hc | hc | hc <;>
      simp [AcquireThreadsafeQueueWaitIdle, hv, hi, hd, FML_DCHECK, hc]
  · intro h1 h2 h3
    simp [AcquireThreadsafeQueueWaitIdle, hv, hi, hd, FML_DCHECK, h1, h2, h3]

/-- C10, amended, when the queue operations do not resolve and the slots are empty. -/
theorem acquire_threadsafe_overwrites_slot_witness :
    AcquireThreadsafeSubmitQueue envNoQueue tableReady ⟨4, none⟩ globalsEmpty =
      .returned (100, ⟨0, 0⟩) ∧
    AcquireThreadsafeQueueWaitIdle envNoQueue tableReady ⟨4, none⟩ globalsEmpty =
      .returned (101, ⟨0, 0⟩) :=
  have r := acquire_threadsafe_overwrites_slot envNoQueue tableReady ⟨4, none⟩ globalsEmpty
    (by decide) (by decide) (by decide)
  ⟨r.1 (Or.inr (Or.inl rfl)), r.2.2.2.1 (Or.inr (Or.inl rfl))⟩

end vulkan
